import Mathlib

set_option maxHeartbeats 1000000

/-!
Verification development for the `debating_app_v2` lesson-pack generator.

The definitions below are a shallow embedding of the TypeScript sources
(`src/schemas.ts`, `src/agents.ts`, `src/googleDocs.ts`, `src/pipeline.ts`).
External collaborators (the OpenAI chat service, the Google Drive/Docs store,
the filesystem, SHA-256, JSON parsing of model replies and zod's URL check)
are modelled as explicit oracle parameters; everything the repository itself
computes is translated directly and executably.

Conventions:
* zod fields declared `.nullable().optional()` are modelled with `Option`
  (absent and null are collapsed; the distinction never affects control flow
  in the translated code, which tests such fields only for JS truthiness).
* JS truthiness of an optional string (`if (x)`) is `x` present and
  non-empty; of an optional array (`if (x && x.length)`) present and
  non-empty; of an optional array tested alone (`if (x)`) merely present.
* Machine counters (cursor offsets, attempt counts, delays) are `Nat`;
  no arithmetic in the translated code can overflow at these sizes.
-/

/-! ### Definitions -/

/-! ## Data model (`src/schemas.ts`) -/
/-- The `DocumentKind` from `pipeline.ts` / the `inputMetadata.kind` enum of
`schemas.ts` (`"pdf" | "markdown" | "transcript" | "raw-notes"`). -/
inductive DocKind where
  | pdf
  | markdown
  | transcript
  | rawNotes
  deriving DecidableEq, Repr

/-- The `SourceLink` schema: `{title, url, note?}`. -/
structure SourceLink where
  title : String
  url : String
  note : Option String
  deriving DecidableEq, Repr

/-- The `Example` schema: label, what happened, why it matters, how-to-use
bullets, and at least one source (the minimum is enforced by validation,
not by the type). -/
structure Example where
  label : String
  whatHappened : String
  whyItMatters : String
  howToUse : List String
  sources : List SourceLink
  deriving DecidableEq, Repr

/-- The `Argument` schema: claim, mechanism, impacts, optional stakeholders,
comparative, preempts and nested examples. -/
structure Argument where
  claim : String
  mechanism : String
  impacts : List String
  stakeholders : Option (List String)
  comparative : Option String
  preempts : Option (List String)
  examples : Option (List Example)
  deriving DecidableEq, Repr

/-- The `Framework` schema (first principles). -/
structure Framework where
  burden : String
  metric : String
  assumptions : List String
  theories : List String
  tests : Option (List String)
  deriving DecidableEq, Repr

/-- The `Weighing` schema. -/
structure Weighing where
  method : String
  adjudicatorNotes : List String
  commonPitfalls : List String
  POIAdvice : Option (List String)
  whipAdvice : Option (List String)
  deriving DecidableEq, Repr

/-- One entry of `rebuttalLadders`. -/
structure RebuttalLadder where
  target : String
  ladder : List String
  deriving DecidableEq, Repr

/-- One entry of `glossary`; the source field `def` is a Lean keyword and
is rendered here as `defn`. -/
structure GlossaryItem where
  term : String
  defn : String
  deriving DecidableEq, Repr

/-- The `inputMetadata` subobject of the `LessonPack` schema. -/
structure InputMetadata where
  filename : Option String
  kind : Option DocKind
  deriving DecidableEq, Repr

/-- The `LessonPack` record (`TLessonPack` in the source). Cardinality
minimums of the zod schema are checked by `lessonPackValid` below. -/
structure LessonPack where
  title : String
  motionOrTopic : Option String
  context : Option String
  firstPrinciples : Framework
  govCase : List Argument
  oppCase : List Argument
  counterCases : Option (List Argument)
  extensions : List String
  rebuttalLadders : Option (List RebuttalLadder)
  weighing : Weighing
  drills : List String
  glossary : Option (List GlossaryItem)
  examplesBank : List Example
  sources : List SourceLink
  inputMetadata : InputMetadata
  deriving DecidableEq, Repr

/-! ## Document renderer (`src/googleDocs.ts`, `DocsBuilder` and
`buildRequests`) -/
/-- The tagged edit-instruction variants emitted by the builder
(`docs_v1.Schema$Request` restricted to the constructors the code uses). -/
inductive DocsRequest where
  | insertText (index : Nat) (text : String)
  | updateParagraphStyle (startIndex endIndex : Nat) (namedStyleType : String)
  | createParagraphBullets (startIndex endIndex : Nat) (bulletPreset : String)
  | updateTextStyle (startIndex endIndex : Nat) (bold : Bool)
  | insertPageBreak (index : Nat)
  | insertTable (index rows columns : Nat)
  deriving DecidableEq, Repr

/-- Ghost instrumentation: which builder primitive produced a group of
requests.  The source has no such record; it exists only so that theorems
can speak about "the paragraph ops of a section" without confusing a
paragraph insertion with a bullet-block insertion of identical text. -/
inductive BuilderOp where
  | heading (level : Nat) (text : String)
  | paragraph (text : String)
  | bulletList (items : List String)
  | boldLabelLine (label text : String)
  | pageBreak
  deriving DecidableEq, Repr

/-- The `DocsBuilder` class: a cursor (`index`, starting at 1) and the
accumulated request list.  `trace` is ghost instrumentation (see
`BuilderOp`). -/
structure DocsBuilder where
  index : Nat
  requests : List DocsRequest
  trace : List BuilderOp
  deriving Repr

/-- A fresh builder: `index = 1`, no requests. -/
def DocsBuilder.new : DocsBuilder := ⟨1, [], []⟩

/-- The `addHeading`: insert `text + "\n"` at the cursor, style exactly that
range as `HEADING_<level>`, advance the cursor by the inserted length. -/
def DocsBuilder.addHeading (b : DocsBuilder) (level : Nat) (text : String) : DocsBuilder :=
  let headingText := text ++ "\n"
  { index := b.index + headingText.length
    requests := b.requests ++
      [DocsRequest.insertText b.index headingText,
       DocsRequest.updateParagraphStyle b.index (b.index + headingText.length)
         ("HEADING_" ++ toString level)]
    trace := b.trace ++ [BuilderOp.heading level text] }

/-- The text a paragraph insertion carries: `text + "\n"`, or a bare
newline when `text` is empty. -/
def paragraphText (text : String) : String :=
  if 0 < text.length then text ++ "\n" else "\n"

/-- The `addParagraph`: insert `paragraphText text` at the cursor and advance
by its length. -/
def DocsBuilder.addParagraph (b : DocsBuilder) (text : String) : DocsBuilder :=
  { index := b.index + (paragraphText text).length
    requests := b.requests ++ [DocsRequest.insertText b.index (paragraphText text)]
    trace := b.trace ++ [BuilderOp.paragraph text] }

/-- The newline-joined block a bullet list inserts. -/
def bulletText (items : List String) : String :=
  String.join (items.map (fun item => item ++ "\n"))

/-- The `addBulletList`: no-op on an empty list; otherwise insert the whole
newline-joined block, emit one bullet-creation request over it, and
advance by the block length. -/
def DocsBuilder.addBulletList (b : DocsBuilder) (items : List String) : DocsBuilder :=
  if items.length = 0 then b
  else
    { index := b.index + (bulletText items).length
      requests := b.requests ++
        [DocsRequest.insertText b.index (bulletText items),
         DocsRequest.createParagraphBullets b.index (b.index + (bulletText items).length)
           "BULLET_DISC_CIRCLE_SQUARE"]
      trace := b.trace ++ [BuilderOp.bulletList items] }

/-- The `addBoldLabelLine`: insert `"label: text\n"`, bold the `label:`
prefix, advance by the line length.  (Present on the builder; not used by
`buildRequests`.) -/
def DocsBuilder.addBoldLabelLine (b : DocsBuilder) (label text : String) : DocsBuilder :=
  let line := label ++ ": " ++ text ++ "\n"
  { index := b.index + line.length
    requests := b.requests ++
      [DocsRequest.insertText b.index line,
       DocsRequest.updateTextStyle b.index (b.index + label.length + 1) true]
    trace := b.trace ++ [BuilderOp.boldLabelLine label text] }

/-- The `addPageBreak`: emit a page-break request and advance the cursor by 1.
(Present on the builder; not used by `buildRequests`.) -/
def DocsBuilder.addPageBreak (b : DocsBuilder) : DocsBuilder :=
  { index := b.index + 1
    requests := b.requests ++ [DocsRequest.insertPageBreak b.index]
    trace := b.trace ++ [BuilderOp.pageBreak] }

/-- The `caseHeadingLabels()`: `appConfig.format === "AUS"` picks the
Australasian labels, anything else the BP labels.  The global config value
is passed as the `format` parameter. -/
def caseHeadingLabels (format : String) : String × String :=
  if format = "AUS" then ("Affirmative Case", "Negative Case")
  else ("Government Case", "Opposition Case")

/-- The repeated source pattern `if (x) { addParagraph(render(x)) }` on an
optional string, with JS truthiness (present and non-empty). -/
def addTruthyParagraph (b : DocsBuilder) (o : Option String) (render : String → String) :
    DocsBuilder :=
  match o with
  | some s => if 0 < s.length then b.addParagraph (render s) else b
  | none => b

/-- The source pattern `if (xs.length) { addParagraph(label); addBulletList(xs) }`. -/
def addLenListBlock (b : DocsBuilder) (label : String) (items : List String) : DocsBuilder :=
  if 0 < items.length then (b.addParagraph label).addBulletList items else b

/-- The source pattern `if (xs) { addParagraph(label); addBulletList(xs) }`:
a present array is truthy even when empty (used for `firstPrinciples.tests`). -/
def addPresentListBlock (b : DocsBuilder) (label : String) (o : Option (List String)) :
    DocsBuilder :=
  match o with
  | some items => (b.addParagraph label).addBulletList items
  | none => b

/-- The source pattern `if (xs && xs.length) { addParagraph(label); addBulletList(xs) }`. -/
def addOptListBlock (b : DocsBuilder) (label : String) (o : Option (List String)) :
    DocsBuilder :=
  match o with
  | some items => if 0 < items.length then (b.addParagraph label).addBulletList items else b
  | none => b

/-- The source pattern `if (xs.length) { addHeading(2, heading); addBulletList(xs) }`
(used for extensions and drills). -/
def addHeadedBullets (b : DocsBuilder) (heading : String) (items : List String) : DocsBuilder :=
  if 0 < items.length then (b.addHeading 2 heading).addBulletList items else b

/-- One nested example inside an argument: label/what-happened and
why-it-matters paragraphs only. -/
def renderArgExample (b : DocsBuilder) (e : Example) : DocsBuilder :=
  (b.addParagraph (e.label ++ " – " ++ e.whatHappened)).addParagraph
    ("Why it matters: " ++ e.whyItMatters)

/-- The `if (argument.examples && argument.examples.length)` block of
`formatArgumentSection`. -/
def addArgExamples (b : DocsBuilder) (o : Option (List Example)) : DocsBuilder :=
  match o with
  | some es =>
    if 0 < es.length then es.foldl renderArgExample (b.addParagraph "Examples:") else b
  | none => b

/-- The body of `items.forEach((argument, index) => ...)` in
`formatArgumentSection`. -/
def renderArgument (b : DocsBuilder) (idx : Nat) (a : Argument) : DocsBuilder :=
  let b := b.addHeading 3 (toString (idx + 1) ++ ". " ++ a.claim)
  let b := b.addParagraph ("Mechanism: " ++ a.mechanism)
  let b := b.addParagraph "Impacts:"
  let b := b.addBulletList a.impacts
  let b := addOptListBlock b "Stakeholders affected:" a.stakeholders
  let b := addTruthyParagraph b a.comparative (fun c => "Comparative: " ++ c)
  let b := addOptListBlock b "Pre-empts:" a.preempts
  addArgExamples b a.examples

/-- The `formatArgumentSection`: section heading, then either the
`"(no content)"` placeholder paragraph (empty list) or one
level-3-headed block per argument. -/
def formatArgumentSection (b : DocsBuilder) (heading : String) (items : List Argument) :
    DocsBuilder :=
  let b := b.addHeading 2 heading
  if items.length = 0 then b.addParagraph "(no content)"
  else (items.enum).foldl (fun b p => renderArgument b p.1 p.2) b

/-- The `pack.glossary` rendering block of `buildRequests`. -/
def addGlossary (b : DocsBuilder) (o : Option (List GlossaryItem)) : DocsBuilder :=
  match o with
  | some items =>
    if 0 < items.length then
      items.foldl (fun b it => b.addParagraph (it.term ++ ": " ++ it.defn))
        (b.addHeading 2 "Glossary")
    else b
  | none => b

/-- The `pack.counterCases` rendering block of `buildRequests`. -/
def addCounterCases (b : DocsBuilder) (o : Option (List Argument)) : DocsBuilder :=
  match o with
  | some items =>
    if 0 < items.length then formatArgumentSection b "Counter Cases" items else b
  | none => b

/-- The `pack.rebuttalLadders` rendering block of `buildRequests`. -/
def addRebuttalLadders (b : DocsBuilder) (o : Option (List RebuttalLadder)) : DocsBuilder :=
  match o with
  | some ladders =>
    if 0 < ladders.length then
      ladders.foldl (fun b l => (b.addHeading 3 l.target).addBulletList l.ladder)
        (b.addHeading 2 "Rebuttal Ladders")
    else b
  | none => b

/-- One examples-bank entry: full example rendering including the
"How to use" bullet list. -/
def renderBankExample (b : DocsBuilder) (e : Example) : DocsBuilder :=
  ((((b.addParagraph e.label).addParagraph
      ("What happened: " ++ e.whatHappened)).addParagraph
      ("Why it matters: " ++ e.whyItMatters)).addParagraph
      "How to use:").addBulletList e.howToUse

/-- The `pack.examplesBank` rendering block of `buildRequests`. -/
def addExamplesBank (b : DocsBuilder) (items : List Example) : DocsBuilder :=
  if 0 < items.length then
    items.foldl renderBankExample (b.addHeading 2 "Examples Bank")
  else b

/-- One sources-list entry: `title – url` plus an optional note line. -/
def addSourceLine (b : DocsBuilder) (s : SourceLink) : DocsBuilder :=
  let b := b.addParagraph (s.title ++ " – " ++ s.url)
  match s.note with
  | some n => if 0 < n.length then b.addParagraph ("Note: " ++ n) else b
  | none => b

/-- The `pack.sources` rendering block of `buildRequests` (the heading is
unconditional). -/
def addSources (b : DocsBuilder) (ss : List SourceLink) : DocsBuilder :=
  ss.foldl addSourceLine (b.addHeading 2 "Sources")

/-- The full render pass of `buildRequests`, exposed at the builder level
so that theorems can inspect the final cursor. -/
def buildRequestsBuilder (format : String) (pack : LessonPack) : DocsBuilder :=
  let b := DocsBuilder.new
  let b := b.addHeading 1 pack.title
  let b := addTruthyParagraph b pack.motionOrTopic (fun m => "Motion: " ++ m)
  let b := addTruthyParagraph b pack.context (fun c => "Context: " ++ c)
  let b := b.addHeading 2 "First Principles"
  let b := b.addParagraph ("Burden: " ++ pack.firstPrinciples.burden)
  let b := b.addParagraph ("Metric: " ++ pack.firstPrinciples.metric)
  let b := addLenListBlock b "Assumptions:" pack.firstPrinciples.assumptions
  let b := addLenListBlock b "Theories:" pack.firstPrinciples.theories
  let b := addPresentListBlock b "Tests:" pack.firstPrinciples.tests
  let labels := caseHeadingLabels format
  let b := formatArgumentSection b labels.1 pack.govCase
  let b := formatArgumentSection b labels.2 pack.oppCase
  let b := addCounterCases b pack.counterCases
  let b := addHeadedBullets b "Extensions" pack.extensions
  let b := addRebuttalLadders b pack.rebuttalLadders
  let b := b.addHeading 2 "Weighing"
  let b := b.addParagraph ("Method: " ++ pack.weighing.method)
  let b := addLenListBlock b "Adjudicator Notes:" pack.weighing.adjudicatorNotes
  let b := addLenListBlock b "Common Pitfalls:" pack.weighing.commonPitfalls
  let b := addOptListBlock b "POI Advice:" pack.weighing.POIAdvice
  let b := addOptListBlock b "Whip Advice:" pack.weighing.whipAdvice
  let b := addHeadedBullets b "Drills" pack.drills
  let b := addGlossary b pack.glossary
  let b := addExamplesBank b pack.examplesBank
  let b := addSources b pack.sources
  addTruthyParagraph b pack.inputMetadata.filename (fun f => "Input file: " ++ f)

/-- The `buildRequests(pack)`: the ordered request list of a full render pass. -/
def buildRequests (format : String) (pack : LessonPack) : List DocsRequest :=
  (buildRequestsBuilder format pack).requests

/-- The `resolveTitle`: JS-truthy fallback chain
title → motionOrTopic → `"Lesson Pack – <filename>"` → `"Lesson Pack"`. -/
def resolveTitle (pack : LessonPack) : String :=
  if 0 < pack.title.length then pack.title
  else
    match pack.motionOrTopic with
    | some m =>
      if 0 < m.length then m
      else resolveTitleFromMetadata pack
    | none => resolveTitleFromMetadata pack
where
  /-- The filename / constant tail of the fallback chain. -/
  resolveTitleFromMetadata (pack : LessonPack) : String :=
    match pack.inputMetadata.filename with
    | some f => if 0 < f.length then "Lesson Pack – " ++ f else "Lesson Pack"
    | none => "Lesson Pack"

/-! ## C2: cursor bookkeeping of the render pass -/
/-- Characters of text carried by a request: only `insertText` inserts
text into the document stream. -/
def insertedLength : DocsRequest → Nat
  | DocsRequest.insertText _ t => t.length
  | _ => 0

/-- Cumulative inserted-text length of a request list. -/
def sumInserted (l : List DocsRequest) : Nat := (l.map insertedLength).sum

/-- The builder invariant: the cursor sits exactly one past the total
inserted text (offset 0 is the reserved document start marker). -/
def BuilderWf (b : DocsBuilder) : Prop :=
  b.index = 1 + sumInserted b.requests

/-! ## C6: the "(no content)" placeholder and per-argument headings -/
/-- A level-3 heading op (the per-argument heading blocks). -/
def isHeading3 : BuilderOp → Bool
  | BuilderOp.heading level _ => level == 3
  | _ => false

/-- A paragraph op whose text is exactly the `"(no content)"` placeholder. -/
def isNoContentPara : BuilderOp → Bool
  | BuilderOp.paragraph s => s == "(no content)"
  | _ => false

/-- Concrete sample values used by witnesses. -/
def sampleSource : SourceLink :=
  { title := "UNEP Report", url := "https://example.com/unep", note := none }

def sampleSource2 : SourceLink :=
  { title := "OECD Study", url := "https://example.com/oecd", note := some "2019" }

def sampleSource3 : SourceLink :=
  { title := "IPCC AR6", url := "https://example.com/ipcc", note := none }

def sampleExample : Example :=
  { label := "Kyoto Protocol"
    whatHappened := "Carbon trading was introduced"
    whyItMatters := "Shows markets can price externalities"
    howToUse := ["Cite when Opp claims regulation never works"]
    sources := [sampleSource] }

def sampleExample2 : Example :=
  { label := "POFMA"
    whatHappened := "Singapore regulated online falsehoods"
    whyItMatters := "State speech regulation precedent"
    howToUse := ["Use for free-speech debates"]
    sources := [sampleSource2] }

def sampleExample3 : Example :=
  { label := "Acid Rain Program"
    whatHappened := "Hard caps cut sulphur dioxide emissions"
    whyItMatters := "Caps work when monitored"
    howToUse := ["Counter to anti-regulation lines"]
    sources := [sampleSource3] }

def sampleArgument : Argument :=
  { claim := "Carbon pricing internalises externalities"
    mechanism := "Firms pay for emissions and so reduce them"
    impacts := ["Lower emissions"]
    stakeholders := none
    comparative := none
    preempts := none
    examples := none }

/-! ## C3: `generateContentFingerprint` (`googleDocs.ts`)

The source computes `sha256hex(JSON.stringify({title, motionOrTopic,
context, govCase, oppCase}))`.  `JSON.stringify` is reimplemented below
over the canonical subset (key order as zod emits the parsed objects;
absent optionals serialised as `null` — the absent/null distinction does
not change which fields the digest depends on); SHA-256 itself is external
crypto and is passed in as the `sha256Hex` oracle. -/
def jsonEscapeChar (c : Char) : String :=
  if c = '"' then "\\\""
  else if c = '\\' then "\\\\"
  else if c = '\n' then "\\n"
  else if c = '\r' then "\\r"
  else if c = '\t' then "\\t"
  else String.singleton c

def jsonEscape (s : String) : String := String.join (s.data.map jsonEscapeChar)

def jsonStr (s : String) : String := "\"" ++ jsonEscape s ++ "\""

def jsonOptStr : Option String → String
  | some s => jsonStr s
  | none => "null"

def jsonArr (elems : List String) : String :=
  "[" ++ String.intercalate "," elems ++ "]"

def jsonObj (fields : List (String × String)) : String :=
  "\x7b" ++ String.intercalate "," (fields.map (fun f => jsonStr f.1 ++ ":" ++ f.2)) ++ "\x7d"

def jsonStrList (l : List String) : String := jsonArr (l.map jsonStr)

def jsonOptStrList : Option (List String) → String
  | some l => jsonStrList l
  | none => "null"

def jsonSourceLink (s : SourceLink) : String :=
  jsonObj [("title", jsonStr s.title), ("url", jsonStr s.url), ("note", jsonOptStr s.note)]

def jsonExample (e : Example) : String :=
  jsonObj [("label", jsonStr e.label), ("whatHappened", jsonStr e.whatHappened),
    ("whyItMatters", jsonStr e.whyItMatters), ("howToUse", jsonStrList e.howToUse),
    ("sources", jsonArr (e.sources.map jsonSourceLink))]

def jsonArgument (a : Argument) : String :=
  jsonObj [("claim", jsonStr a.claim), ("mechanism", jsonStr a.mechanism),
    ("impacts", jsonStrList a.impacts), ("stakeholders", jsonOptStrList a.stakeholders),
    ("comparative", jsonOptStr a.comparative), ("preempts", jsonOptStrList a.preempts),
    ("examples", match a.examples with
      | some es => jsonArr (es.map jsonExample)
      | none => "null")]

/-- The `contentString` of `generateContentFingerprint`: the canonical
subset `{title, motionOrTopic, context, govCase, oppCase}` serialised;
`inputMetadata` and all other fields are deliberately excluded. -/
def contentString (pack : LessonPack) : String :=
  jsonObj [("title", jsonStr pack.title), ("motionOrTopic", jsonOptStr pack.motionOrTopic),
    ("context", jsonOptStr pack.context),
    ("govCase", jsonArr (pack.govCase.map jsonArgument)),
    ("oppCase", jsonArr (pack.oppCase.map jsonArgument))]

/-- The `generateContentFingerprint`: SHA-256 hex digest (oracle) of the
canonical content string. -/
def generateContentFingerprint (sha256Hex : String → String) (pack : LessonPack) : String :=
  sha256Hex (contentString pack)

def sampleArgument2 : Argument :=
  { claim := "Subsidy removal hurts the poor"
    mechanism := "Energy prices rise fastest for low-income households"
    impacts := ["Regressive burden"]
    stakeholders := some ["Low-income households"]
    comparative := some "Worse than targeted transfers"
    preempts := none
    examples := some [sampleExample] }

/-- A fully schema-valid sample pack (1 argument per case, 3 bank
examples each with a source, 3 sources). -/
def samplePack : LessonPack :=
  { title := "Environment"
    motionOrTopic := some "THW ban fossil fuel subsidies"
    context := some "Senior training session"
    firstPrinciples :=
      { burden := "Show net harm reduction"
        metric := "Welfare"
        assumptions := ["Markets respond to price"]
        theories := ["Utilitarianism"]
        tests := none }
    govCase := [sampleArgument]
    oppCase := [sampleArgument2]
    counterCases := none
    extensions := ["Green jobs extension"]
    rebuttalLadders := none
    weighing :=
      { method := "Magnitude then probability"
        adjudicatorNotes := ["Compare worlds"]
        commonPitfalls := ["Assertion without mechanism"]
        POIAdvice := none
        whipAdvice := none }
    drills := ["Rebuttal drill"]
    glossary := none
    examplesBank := [sampleExample, sampleExample2, sampleExample3]
    sources := [sampleSource, sampleSource2, sampleSource3]
    inputMetadata := { filename := some "environment.md", kind := some DocKind.markdown } }

/-- The same canonical content under different input metadata (and
different drills). -/
def samplePackAlt : LessonPack :=
  { samplePack with
    inputMetadata := { filename := some "other-name.pdf", kind := some DocKind.pdf }
    drills := ["Different drill"] }

/-! ## C4: `withRetry` (`googleDocs.ts`)

The wrapped remote call is an oracle indexed by attempt number (attempt 1
is the first call).  The embedding returns the outcome, the number of
invocations made, and the list of backoff delays slept (in order).  The
source defaults are `maxRetries = 4`, `baseDelay = 1000`; both are
parameters here.  The `fuel` argument mirrors the `for` bound
(`attempt <= maxRetries + 1`); the fuel-exhausted case is the
source's unreachable final `throw`. -/
structure ApiError where
  code : Option Int
  message : String
  deriving DecidableEq, Repr

/-- Character-list prefix test. -/
def isPrefixChars : List Char → List Char → Bool
  | [], _ => true
  | _ :: _, [] => false
  | p :: ps, h :: hs => p == h && isPrefixChars ps hs

/-- Character-list substring test: `pat` occurs somewhere in the haystack. -/
def includesChars (pat : List Char) : List Char → Bool
  | [] => isPrefixChars pat []
  | h :: rest => isPrefixChars pat (h :: rest) || includesChars pat rest

/-- JS `String.prototype.includes` (substring containment), modelled over
character lists. -/
def strIncludes (s pat : String) : Bool := includesChars pat.data s.data

/-- The transient-error test: 429, 503, any 5xx code, `ECONNRESET` or
`ETIMEDOUT` in the message. -/
def isRetryableError (e : ApiError) : Bool :=
  (e.code == some 429) || (e.code == some 503) ||
  (match e.code with
   | some c => decide (500 ≤ c) && decide (c < 600)
   | none => false) ||
  strIncludes e.message "ECONNRESET" || strIncludes e.message "ETIMEDOUT"

inductive RetryError where
  | api (e : ApiError)
  | unexpected
  deriving DecidableEq, Repr

def withRetryGo {T : Type} (fn : Nat → Except ApiError T) (baseDelay maxRetries : Nat) :
    Nat → Nat → Except RetryError T × Nat × List Nat
  | _, 0 => (Except.error RetryError.unexpected, 0, [])
  | attempt, fuel + 1 =>
    match fn attempt with
    | Except.ok t => (Except.ok t, 1, [])
    | Except.error e =>
      if !(isRetryableError e) || attempt == maxRetries + 1 then
        (Except.error (RetryError.api e), 1, [])
      else
        let delay := baseDelay * 2 ^ (attempt - 1)
        let rest := withRetryGo fn baseDelay maxRetries (attempt + 1) fuel
        (rest.1, rest.2.1 + 1, delay :: rest.2.2)

/-- The `withRetry(fn, {maxRetries, baseDelay})`: run from attempt 1. -/
def withRetry {T : Type} (fn : Nat → Except ApiError T) (maxRetries baseDelay : Nat) :
    Except RetryError T × Nat × List Nat :=
  withRetryGo fn baseDelay maxRetries 1 (maxRetries + 1)

/-- The doubling delay sequence starting at exponent `s`, of length `f`. -/
def backoffDelays (baseDelay : Nat) : Nat → Nat → List Nat
  | _, 0 => []
  | s, f + 1 => baseDelay * 2 ^ s :: backoffDelays baseDelay (s + 1) f

/-! ## C1/C7: `callJsonModel` (`agents.ts`)

The chat service is an oracle receiving the attempt number and the
conversation so far (the source passes only the conversation; its shape
determines the attempt number, so giving the oracle both is at least as
general).  `none` models a completion whose `choices[0]?.message` is
absent.  `JSON.parse` composed with `schema.parse` is the `validate`
oracle: `Except.ok` is a parsed-and-validated value, `Except.error d`
carries the failure detail string the source would build. -/
inductive Role where
  | system
  | user
  | assistant
  deriving DecidableEq, Repr

structure ChatMessage where
  role : Role
  content : String
  deriving DecidableEq, Repr

/-- One part of an array-shaped message content. -/
inductive ContentPart where
  | str (s : String)
  | textPart (text : String)
  | other
  deriving DecidableEq, Repr

def partText : ContentPart → String
  | ContentPart.str s => s
  | ContentPart.textPart t => t
  | ContentPart.other => ""

/-- The shape of `message.content`: a plain string, an array of parts, or
anything else (null/undefined/non-array). -/
inductive MessageContent where
  | str (s : String)
  | parts (ps : List ContentPart)
  | missing
  deriving DecidableEq, Repr

/-- The `extractMessageContent`: a string is returned as-is; an array is
concatenated in order; anything else is the empty string. -/
def extractMessageContent : MessageContent → String
  | MessageContent.str s => s
  | MessageContent.parts ps => String.join (ps.map partText)
  | MessageContent.missing => ""

inductive GenFailure where
  | emptyResponse
  | invalidOutput (detail raw : String)
  | exhausted
  deriving DecidableEq, Repr

/-- The corrective user turn appended after a failed validation. -/
def correctionMessage (detail : String) : String :=
  "The previous JSON was invalid because: " ++ detail ++
  ". Reply again with strictly valid JSON that matches the required format."

/-- The initial two-message conversation: system prompt (with the format
hint appended when present) and the user prompt. -/
def initialMessages (systemPrompt userPrompt : String) (formatHint : Option String) :
    List ChatMessage :=
  [⟨Role.system,
    match formatHint with
    | some h =>
      systemPrompt ++ "\n\nREQUIRED JSON FORMAT (no commentary, no extra keys):\n" ++ h
    | none => systemPrompt⟩,
   ⟨Role.user, userPrompt⟩]

/-- The retry loop of `callJsonModel`.  Returns the outcome and the number
of model calls made.  `fuel` mirrors the `for` bound (`attempt <=
maxAttempts`); fuel 0 is the loop falling through to the source's final
`throw` (reachable only when `maxAttempts < 1`). -/
def callJsonModelGo {T : Type} (oracle : Nat → List ChatMessage → Option MessageContent)
    (validate : String → Except String T) (maxAttempts : Nat) :
    List ChatMessage → Nat → Nat → Except GenFailure T × Nat
  | _, _, 0 => (Except.error GenFailure.exhausted, 0)
  | msgs, attempt, fuel + 1 =>
    match oracle attempt msgs with
    | none => (Except.error GenFailure.emptyResponse, 1)
    | some mc =>
      let content := extractMessageContent mc
      match validate content with
      | Except.ok v => (Except.ok v, 1)
      | Except.error detail =>
        if attempt == maxAttempts then
          (Except.error (GenFailure.invalidOutput detail content), 1)
        else
          let msgs' := msgs ++
            [⟨Role.assistant, content⟩, ⟨Role.user, correctionMessage detail⟩]
          let rest := callJsonModelGo oracle validate maxAttempts msgs' (attempt + 1) fuel
          (rest.1, rest.2 + 1)

/-- The `callJsonModel`: build the initial conversation and run from attempt 1. -/
def callJsonModel {T : Type} (oracle : Nat → List ChatMessage → Option MessageContent)
    (validate : String → Except String T) (systemPrompt userPrompt : String)
    (formatHint : Option String) (maxAttempts : Nat) : Except GenFailure T × Nat :=
  callJsonModelGo oracle validate maxAttempts
    (initialMessages systemPrompt userPrompt formatHint) 1 maxAttempts

/-- Attempt `i` gets a message whose content fails parse-or-validate. -/
def replyInvalid {T : Type} (oracle : Nat → List ChatMessage → Option MessageContent)
    (validate : String → Except String T) (i : Nat) (msgs : List ChatMessage) : Prop :=
  ∃ mc, oracle i msgs = some mc
    ∧ ∃ d, validate (extractMessageContent mc) = Except.error d

/-- Every attempt gets an invalid (but present) reply. -/
def alwaysInvalid {T : Type} (oracle : Nat → List ChatMessage → Option MessageContent)
    (validate : String → Except String T) : Prop :=
  ∀ i msgs, replyInvalid oracle validate i msgs

/-- All attempts before `k` get invalid replies. -/
def invalidBelow {T : Type} (oracle : Nat → List ChatMessage → Option MessageContent)
    (validate : String → Except String T) (k : Nat) : Prop :=
  ∀ i msgs, i < k → replyInvalid oracle validate i msgs

/-- Attempt `k` gets a reply that validates to `t`. -/
def validAt {T : Type} (oracle : Nat → List ChatMessage → Option MessageContent)
    (validate : String → Except String T) (k : Nat) (t : T) : Prop :=
  ∀ msgs, ∃ mc, oracle k msgs = some mc
    ∧ validate (extractMessageContent mc) = Except.ok t

/-! ## C5/C8: schema validation and the per-file pipeline (`schemas.ts`,
`pipeline.ts`)

The agent stages (each a `callJsonModel` invocation against a remote
service), the publisher and zod's URL-format check are oracles collected
in `AgentOracles`.  The per-file pipeline embedded here is the variant of
`runPipeline` that wraps preprocessing in its own per-file try/catch
(`pipeline.ts` lines 462–504). -/
/-- The `StrategistOutput` schema. -/
structure StrategistOutput where
  motionOrTopic : Option String
  context : Option String
  firstPrinciples : Framework
  govCase : List Argument
  oppCase : List Argument
  extensions : List String
  deriving DecidableEq, Repr

/-- The `ResearchAdjOutput` schema. -/
structure ResearchAdjOutput where
  examplesBank : List Example
  weighing : Weighing
  drills : List String
  deriving DecidableEq, Repr

/-- The `PreprocessedDocument` (`pipeline.ts`); `kind` only ever takes the
three values `detectKind` produces (pdf/markdown/raw-notes). -/
structure PreprocessedDocument where
  absolutePath : String
  filename : String
  kind : DocKind
  text : String
  contextHint : Option String
  wasTruncated : Option Bool
  originalLength : Option Nat
  deriving DecidableEq, Repr

/-- The `AgentInput` (`agents.ts`). -/
structure AgentInput where
  filename : String
  documentText : String
  contextHint : Option String
  deriving DecidableEq, Repr

/-- The `buildAgentInput` (`pipeline.ts`). -/
def buildAgentInput (doc : PreprocessedDocument) : AgentInput :=
  { filename := doc.filename, documentText := doc.text, contextHint := doc.contextHint }

/-- The `FileProcessingResult` (`pipeline.ts`). -/
structure FileProcessingResult where
  file : String
  success : Bool
  error : Option String
  googleDocUrl : Option String
  deriving DecidableEq, Repr

/-- The `PublishResult` (`googleDocs.ts`). -/
structure PublishResult where
  docId : String
  docUrl : String
  deriving DecidableEq, Repr

/-- zod `Example` constraints: `sources.min(1)` and each source URL
well-formed (URL syntax check is the `urlValid` oracle). -/
def exampleValid (urlValid : String → Bool) (e : Example) : Bool :=
  decide (1 ≤ e.sources.length) && e.sources.all (fun s => urlValid s.url)

/-- zod `Argument` constraints: `impacts.min(1)` and nested examples valid. -/
def argumentValid (urlValid : String → Bool) (a : Argument) : Bool :=
  decide (1 ≤ a.impacts.length) &&
  (match a.examples with
   | some es => es.all (exampleValid urlValid)
   | none => true)

/-- The full `LessonPack` zod schema constraints: `govCase.min(1)`,
`oppCase.min(1)`, `examplesBank.min(3)`, `sources.min(3)`, and the nested
argument/example/source constraints. -/
def lessonPackValid (urlValid : String → Bool) (p : LessonPack) : Bool :=
  decide (1 ≤ p.govCase.length) && p.govCase.all (argumentValid urlValid) &&
  decide (1 ≤ p.oppCase.length) && p.oppCase.all (argumentValid urlValid) &&
  (match p.counterCases with
   | some l => l.all (argumentValid urlValid)
   | none => true) &&
  decide (3 ≤ p.examplesBank.length) && p.examplesBank.all (exampleValid urlValid) &&
  decide (3 ≤ p.sources.length) && p.sources.all (fun s => urlValid s.url)

/-- The `LessonPack.parse`: zod validation of an already-typed record —
returns the record when the schema constraints hold, else throws. -/
def LessonPack.parse (urlValid : String → Bool) (p : LessonPack) : Except String LessonPack :=
  if lessonPackValid urlValid p then Except.ok p
  else Except.error "LessonPack validation failed"

/-- The finalize stamping: `{...pack, inputMetadata: {filename, kind}}`. -/
def stampPack (pack : LessonPack) (doc : PreprocessedDocument) : LessonPack :=
  { pack with inputMetadata := { filename := some doc.filename, kind := some doc.kind } }

/-- The external collaborators of one file's pipeline. -/
structure AgentOracles where
  strategist : AgentInput → Except String StrategistOutput
  research : AgentInput → Except String ResearchAdjOutput
  synthesis : StrategistOutput → ResearchAdjOutput → AgentInput → Except String LessonPack
  publish : LessonPack → Except String (Option PublishResult)
  urlValid : String → Bool

/-- The `processSingleFile`: strategist and research (jointly awaited; a
rejection of either fails the file — the strategist's error is reported
when both fail), then synthesis, then stamp-and-validate, then publish;
any failure is caught and becomes a failure outcome. -/
def processSingleFile (o : AgentOracles) (doc : PreprocessedDocument) : FileProcessingResult :=
  match o.strategist (buildAgentInput doc) with
  | Except.error e =>
    { file := doc.absolutePath, success := false, error := some e, googleDocUrl := none }
  | Except.ok strategist =>
    match o.research (buildAgentInput doc) with
    | Except.error e =>
      { file := doc.absolutePath, success := false, error := some e, googleDocUrl := none }
    | Except.ok researcher =>
      match o.synthesis strategist researcher (buildAgentInput doc) with
      | Except.error e =>
        { file := doc.absolutePath, success := false, error := some e, googleDocUrl := none }
      | Except.ok pack =>
        match LessonPack.parse o.urlValid (stampPack pack doc) with
        | Except.error e =>
          { file := doc.absolutePath, success := false, error := some e, googleDocUrl := none }
        | Except.ok finalPack =>
          match o.publish finalPack with
          | Except.error e =>
            { file := doc.absolutePath, success := false, error := some e,
              googleDocUrl := none }
          | Except.ok publishResult =>
            { file := doc.absolutePath, success := true, error := none,
              googleDocUrl := publishResult.map PublishResult.docUrl }

/-- The whole per-file boundary including the preprocessing try/catch. -/
def perFileOutcome (o : AgentOracles)
    (preprocess : String → Except String PreprocessedDocument) (file : String) :
    FileProcessingResult :=
  match preprocess file with
  | Except.ok doc => processSingleFile o doc
  | Except.error msg =>
    { file := file, success := false, error := some msg, googleDocUrl := none }

/-- The `runPipeline`: sequential for-loop over the discovered files, pushing
exactly one outcome per file; preprocessing errors are caught per-file. -/
def runPipeline (o : AgentOracles)
    (preprocess : String → Except String PreprocessedDocument) (files : List String) :
    List FileProcessingResult :=
  files.foldl (fun results file =>
    results ++
      [match preprocess file with
       | Except.ok doc => processSingleFile o doc
       | Except.error msg =>
         { file := file, success := false, error := some msg, googleDocUrl := none }]) []

/-- Witness oracles: all agent stages succeed, publishing returns a URL. -/
def stratW : StrategistOutput :=
  { motionOrTopic := none
    context := none
    firstPrinciples := samplePack.firstPrinciples
    govCase := [sampleArgument]
    oppCase := [sampleArgument2]
    extensions := ["Extension lane 1", "Extension lane 2"] }

def resW : ResearchAdjOutput :=
  { examplesBank := [sampleExample, sampleExample2, sampleExample3]
    weighing := samplePack.weighing
    drills := ["Drill 1", "Drill 2"] }

def goodOracles : AgentOracles :=
  { strategist := fun _ => Except.ok stratW
    research := fun _ => Except.ok resW
    synthesis := fun _ _ _ => Except.ok samplePack
    publish := fun _ =>
      Except.ok (some ⟨"doc-1", "https://docs.google.com/document/d/doc-1/edit"⟩)
    urlValid := fun _ => true }

/-- Witness oracles whose synthesis stage emits a pack with no GOV
arguments (fails the full-schema minimum). -/
def badSynthOracles : AgentOracles :=
  { goodOracles with synthesis := fun _ _ _ => Except.ok { samplePack with govCase := [] } }

def preW : String → Except String PreprocessedDocument := fun file =>
  if file == "bad.pdf" then
    Except.error "Failed to parse PDF"
  else
    Except.ok
      { absolutePath := file, filename := file, kind := DocKind.markdown,
        text := "notes", contextHint := none, wasTruncated := some false,
        originalLength := some 5 }

def docW : PreprocessedDocument :=
  { absolutePath := "/notes/environment.md", filename := "environment.md",
    kind := DocKind.markdown, text := "Save the planet", contextHint := none,
    wasTruncated := some false, originalLength := some 15 }

/-! ## C9/C10: fingerprint search and the idempotent publisher
(`googleDocs.ts`)

Remote Drive/Docs calls are oracles giving the post-retry outcome of each
call (`withRetry` around each call is embedded separately above).  The
Drive listing asks for `pageSize: 100`, so the page returned is (at most)
the first 100 files of the store's listing order; `PublishStep` is ghost
instrumentation recording which remote mutations the publisher performed. -/
def FINGERPRINT_PROPERTY_KEY : String := "debatingnotes_fingerprint"

structure DriveFile where
  id : String
  name : String
  appProperties : List (String × String)
  deriving DecidableEq, Repr

/-- JS property lookup `appProperties?.[key]`. -/
def lookupProp : List (String × String) → String → Option String
  | [], _ => none
  | (k, v) :: rest, key => if k == key then some v else lookupProp rest key

/-- The `file.appProperties?.[FINGERPRINT_PROPERTY_KEY] === fingerprint`. -/
def fileMatchesFingerprint (f : DriveFile) (fingerprint : String) : Bool :=
  lookupProp f.appProperties FINGERPRINT_PROPERTY_KEY == some fingerprint

/-- The `for (const file of files)` loop: first match wins. -/
def findFirstFingerprintMatch : List DriveFile → String → Option String
  | [], _ => none
  | f :: rest, fp =>
    if fileMatchesFingerprint f fp then some f.id
    else findFirstFingerprintMatch rest fp

/-- The Drive `files.list` call with `pageSize: 100`: on success the page
holds at most the first 100 files of the store. -/
def listFilesResponse (store : List DriveFile) (outcome : Except ApiError Unit) :
    Except ApiError (List DriveFile) :=
  match outcome with
  | Except.error e => Except.error e
  | Except.ok _ => Except.ok (store.take 100)

/-- The `findExistingDocByFingerprint`: scan the returned page for the
fingerprint property; any search failure is swallowed into `none`. -/
def findExistingDocByFingerprint (listOutcome : Except ApiError (List DriveFile))
    (fingerprint : String) : Option String :=
  match listOutcome with
  | Except.error _ => none
  | Except.ok files => findFirstFingerprintMatch files fingerprint

inductive GoogleMode where
  | none
  | serviceAccount
  | oauth
  deriving DecidableEq, Repr

structure GoogleConfigM where
  mode : GoogleMode
  exportFolderId : Option String
  deriving DecidableEq, Repr

/-- Ghost record of the remote mutations the publisher performs. -/
inductive PublishStep where
  | clearedRange (startIndex endIndex : Nat)
  | createdNew (name fingerprint : String)
  | appliedContent
  deriving DecidableEq, Repr

/-- Post-retry outcomes of the individual remote calls of one publish. -/
structure RemoteOracles where
  authOutcome : Except String Unit
  listOutcome : Except ApiError Unit
  getDocEndIndex : Except ApiError (Option Nat)
  clearOutcome : Except ApiError Unit
  createdId : Except ApiError (Option String)
  batchOutcome : Except ApiError Unit
  webViewLink : Except ApiError (Option String)

/-- The common tail of both publish branches: batch-apply the rendered
requests (skipped when empty), then resolve the view URL. -/
def finishPublish (ro : RemoteOracles) (format : String) (pack : LessonPack)
    (docId : String) (steps : List PublishStep) :
    Except String (Option PublishResult) × List PublishStep :=
  let requests := buildRequests format pack
  match (if requests.length ≠ 0 then ro.batchOutcome else Except.ok ()) with
  | Except.error e => (Except.error e.message, steps)
  | Except.ok _ =>
    let steps :=
      if requests.length ≠ 0 then steps ++ [PublishStep.appliedContent] else steps
    match ro.webViewLink with
    | Except.error e => (Except.error e.message, steps)
    | Except.ok linkOpt =>
      let docUrl :=
        match linkOpt with
        | some l => l
        | none => "https://docs.google.com/document/d/" ++ docId ++ "/edit"
      (Except.ok (some ⟨docId, docUrl⟩), steps)

/-- The `publishLessonPack` (fingerprint variant): disabled config is an
explicit no-op; otherwise resolve auth, fingerprint the pack, search for
an existing document, then clear-and-rewrite it or create a fresh one
(stamped with the fingerprint) and apply the rendered content. -/
def publishLessonPack (ro : RemoteOracles) (store : List DriveFile)
    (config : GoogleConfigM) (sha256Hex : String → String) (format : String)
    (pack : LessonPack) : Except String (Option PublishResult) × List PublishStep :=
  if config.mode = GoogleMode.none then (Except.ok none, [])
  else
    match ro.authOutcome with
    | Except.error e => (Except.error e, [])
    | Except.ok _ =>
      let title := resolveTitle pack
      let fingerprint := generateContentFingerprint sha256Hex pack
      match findExistingDocByFingerprint (listFilesResponse store ro.listOutcome)
          fingerprint with
      | some docId =>
        match ro.getDocEndIndex with
        | Except.error e => (Except.error e.message, [])
        | Except.ok endIndexOpt =>
          match endIndexOpt with
          | some endIndex =>
            if 1 < endIndex then
              match ro.clearOutcome with
              | Except.error e => (Except.error e.message, [])
              | Except.ok _ =>
                finishPublish ro format pack docId
                  [PublishStep.clearedRange 1 (endIndex - 1)]
            else finishPublish ro format pack docId []
          | none => finishPublish ro format pack docId []
      | none =>
        match ro.createdId with
        | Except.error e => (Except.error e.message, [])
        | Except.ok none =>
          (Except.error "Failed to create Google Doc – no file ID returned", [])
        | Except.ok (some docId) =>
          finishPublish ro format pack docId
            [PublishStep.createdNew title fingerprint]

def plainFile : DriveFile := { id := "plain-id", name := "doc", appProperties := [] }

def matchFile : DriveFile :=
  { id := "match-id", name := "doc", appProperties := [(FINGERPRINT_PROPERTY_KEY, "FP")] }

/-- A store of 101 documents whose only fingerprint match sits at
position 101 — beyond the 100-file page. -/
def bigStore : List DriveFile := List.replicate 100 plainFile ++ [matchFile]

def remoteOraclesW : RemoteOracles :=
  { authOutcome := Except.ok ()
    listOutcome := Except.ok ()
    getDocEndIndex := Except.ok (some 10)
    clearOutcome := Except.ok ()
    createdId := Except.ok (some "new-id")
    batchOutcome := Except.ok ()
    webViewLink := Except.ok none }

def googleConfigW : GoogleConfigM :=
  { mode := GoogleMode.serviceAccount, exportFolderId := none }

/-- A pack whose title is empty, motion absent, and whose input-metadata
filename is present (non-null) but the empty string. -/
def emptyTitlePack : LessonPack :=
  { samplePack with
    title := ""
    motionOrTopic := none
    inputMetadata := { filename := some "", kind := none } }

/-- JS truthiness of an optional string: present and non-empty. -/
def optTruthy : Option String → Bool
  | some s => !s.isEmpty
  | none => false

/-! ### Theorems -/

theorem sumInserted_append (l₁ l₂ : List DocsRequest) :
    sumInserted (l₁ ++ l₂) = sumInserted l₁ + sumInserted l₂ := by
  simp [sumInserted]

theorem wf_new : BuilderWf DocsBuilder.new := by
  simp [BuilderWf, DocsBuilder.new, sumInserted]

theorem wf_addHeading {b : DocsBuilder} {level : Nat} {text : String}
    (h : BuilderWf b) : BuilderWf (b.addHeading level text) := by
  simp [BuilderWf, DocsBuilder.addHeading, sumInserted_append, sumInserted,
    insertedLength] at h ⊢
  omega

theorem wf_addParagraph {b : DocsBuilder} {text : String}
    (h : BuilderWf b) : BuilderWf (b.addParagraph text) := by
  simp [BuilderWf, DocsBuilder.addParagraph, sumInserted_append, sumInserted,
    insertedLength] at h ⊢
  omega

theorem wf_addBulletList {b : DocsBuilder} {items : List String}
    (h : BuilderWf b) : BuilderWf (b.addBulletList items) := by
  unfold DocsBuilder.addBulletList
  split
  · exact h
  · simp [BuilderWf, sumInserted_append, sumInserted, insertedLength] at h ⊢
    omega

theorem wf_addTruthyParagraph {b : DocsBuilder} {o : Option String}
    {render : String → String} (h : BuilderWf b) :
    BuilderWf (addTruthyParagraph b o render) := by
  unfold addTruthyParagraph
  cases o with
  | none => exact h
  | some s =>
    dsimp only
    split
    · exact wf_addParagraph h
    · exact h

theorem wf_addLenListBlock {b : DocsBuilder} {label : String} {items : List String}
    (h : BuilderWf b) : BuilderWf (addLenListBlock b label items) := by
  unfold addLenListBlock
  split
  · exact wf_addBulletList (wf_addParagraph h)
  · exact h

theorem wf_addPresentListBlock {b : DocsBuilder} {label : String}
    {o : Option (List String)} (h : BuilderWf b) :
    BuilderWf (addPresentListBlock b label o) := by
  unfold addPresentListBlock
  cases o with
  | none => exact h
  | some items => exact wf_addBulletList (wf_addParagraph h)

theorem wf_addOptListBlock {b : DocsBuilder} {label : String}
    {o : Option (List String)} (h : BuilderWf b) :
    BuilderWf (addOptListBlock b label o) := by
  unfold addOptListBlock
  cases o with
  | none => exact h
  | some items =>
    dsimp only
    split
    · exact wf_addBulletList (wf_addParagraph h)
    · exact h

theorem wf_addHeadedBullets {b : DocsBuilder} {heading : String} {items : List String}
    (h : BuilderWf b) : BuilderWf (addHeadedBullets b heading items) := by
  unfold addHeadedBullets
  split
  · exact wf_addBulletList (wf_addHeading h)
  · exact h

/-- Any builder-valued fold preserves a property preserved by each step. -/
theorem foldl_builder_preserve {α : Type} (P : DocsBuilder → Prop)
    (f : DocsBuilder → α → DocsBuilder) (hf : ∀ b x, P b → P (f b x)) :
    ∀ (l : List α) (b : DocsBuilder), P b → P (l.foldl f b) := by
  intro l
  induction l with
  | nil => intro b hb; simpa using hb
  | cons x xs ih =>
    intro b hb
    simpa using ih _ (hf _ _ hb)

theorem wf_renderArgExample {b : DocsBuilder} {e : Example}
    (h : BuilderWf b) : BuilderWf (renderArgExample b e) :=
  wf_addParagraph (wf_addParagraph h)

theorem wf_addArgExamples {b : DocsBuilder} {o : Option (List Example)}
    (h : BuilderWf b) : BuilderWf (addArgExamples b o) := by
  unfold addArgExamples
  cases o with
  | none => exact h
  | some es =>
    dsimp only
    split
    · exact foldl_builder_preserve BuilderWf renderArgExample
        (fun _ _ hb => wf_renderArgExample hb) es _ (wf_addParagraph h)
    · exact h

theorem wf_renderArgument {b : DocsBuilder} {idx : Nat} {a : Argument}
    (h : BuilderWf b) : BuilderWf (renderArgument b idx a) :=
  wf_addArgExamples (wf_addOptListBlock (wf_addTruthyParagraph (wf_addOptListBlock
    (wf_addBulletList (wf_addParagraph (wf_addParagraph (wf_addHeading h)))))))

theorem wf_formatArgumentSection {b : DocsBuilder} {heading : String}
    {items : List Argument} (h : BuilderWf b) :
    BuilderWf (formatArgumentSection b heading items) := by
  unfold formatArgumentSection
  dsimp only
  split
  · exact wf_addParagraph (wf_addHeading h)
  · exact foldl_builder_preserve BuilderWf _
      (fun _ _ hb => wf_renderArgument hb) items.enum _ (wf_addHeading h)

theorem wf_addGlossary {b : DocsBuilder} {o : Option (List GlossaryItem)}
    (h : BuilderWf b) : BuilderWf (addGlossary b o) := by
  unfold addGlossary
  cases o with
  | none => exact h
  | some items =>
    dsimp only
    split
    · exact foldl_builder_preserve BuilderWf _
        (fun _ _ hb => wf_addParagraph hb) items _ (wf_addHeading h)
    · exact h

theorem wf_addCounterCases {b : DocsBuilder} {o : Option (List Argument)}
    (h : BuilderWf b) : BuilderWf (addCounterCases b o) := by
  unfold addCounterCases
  cases o with
  | none => exact h
  | some items =>
    dsimp only
    split
    · exact wf_formatArgumentSection h
    · exact h

theorem wf_addRebuttalLadders {b : DocsBuilder} {o : Option (List RebuttalLadder)}
    (h : BuilderWf b) : BuilderWf (addRebuttalLadders b o) := by
  unfold addRebuttalLadders
  cases o with
  | none => exact h
  | some ladders =>
    dsimp only
    split
    · exact foldl_builder_preserve BuilderWf _
        (fun _ _ hb => wf_addBulletList (wf_addHeading hb)) ladders _ (wf_addHeading h)
    · exact h

theorem wf_renderBankExample {b : DocsBuilder} {e : Example}
    (h : BuilderWf b) : BuilderWf (renderBankExample b e) :=
  wf_addBulletList (wf_addParagraph (wf_addParagraph (wf_addParagraph
    (wf_addParagraph h))))

theorem wf_addExamplesBank {b : DocsBuilder} {items : List Example}
    (h : BuilderWf b) : BuilderWf (addExamplesBank b items) := by
  unfold addExamplesBank
  split
  · exact foldl_builder_preserve BuilderWf renderBankExample
      (fun _ _ hb => wf_renderBankExample hb) items _ (wf_addHeading h)
  · exact h

theorem wf_addSourceLine {b : DocsBuilder} {s : SourceLink}
    (h : BuilderWf b) : BuilderWf (addSourceLine b s) := by
  unfold addSourceLine
  cases s.note with
  | none => exact wf_addParagraph h
  | some n =>
    dsimp only
    split
    · exact wf_addParagraph (wf_addParagraph h)
    · exact wf_addParagraph h

theorem wf_addSources {b : DocsBuilder} {ss : List SourceLink}
    (h : BuilderWf b) : BuilderWf (addSources b ss) :=
  foldl_builder_preserve BuilderWf addSourceLine
    (fun _ _ hb => wf_addSourceLine hb) ss _ (wf_addHeading h)

theorem wf_buildRequestsBuilder (format : String) (pack : LessonPack) :
    BuilderWf (buildRequestsBuilder format pack) := by
  unfold buildRequestsBuilder
  exact wf_addTruthyParagraph (wf_addSources (wf_addExamplesBank (wf_addGlossary
    (wf_addHeadedBullets (wf_addOptListBlock (wf_addOptListBlock (wf_addLenListBlock
    (wf_addLenListBlock (wf_addParagraph (wf_addHeading (wf_addRebuttalLadders
    (wf_addHeadedBullets (wf_addCounterCases (wf_formatArgumentSection
    (wf_formatArgumentSection (wf_addPresentListBlock (wf_addLenListBlock
    (wf_addLenListBlock (wf_addParagraph (wf_addParagraph (wf_addHeading
    (wf_addTruthyParagraph (wf_addTruthyParagraph (wf_addHeading
    wf_new))))))))))))))))))))))))

/-- C2.  The render pass of `buildRequests` starts its cursor at offset 1;
each of the three primitives it uses advances the cursor by exactly the
length of the text it inserts (hence never decreases it); and the final
cursor equals 1 plus the cumulative inserted-text length of the emitted
requests — i.e. total inserted text = final cursor − 1. -/
theorem c2_render_cursor_invariant :
    DocsBuilder.new.index = 1
    ∧ (∀ (b : DocsBuilder) (level : Nat) (text : String),
        (b.addHeading level text).index = b.index + (text ++ "\n").length
        ∧ b.index ≤ (b.addHeading level text).index)
    ∧ (∀ (b : DocsBuilder) (text : String),
        (b.addParagraph text).index = b.index + (paragraphText text).length
        ∧ b.index ≤ (b.addParagraph text).index)
    ∧ (∀ (b : DocsBuilder) (items : List String),
        (b.addBulletList items).index
          = b.index + (if items.length = 0 then 0 else (bulletText items).length)
        ∧ b.index ≤ (b.addBulletList items).index)
    ∧ (∀ (format : String) (pack : LessonPack),
        (buildRequestsBuilder format pack).index
          = 1 + sumInserted (buildRequests format pack)) := by
  refine ⟨rfl, ?_, ?_, ?_, ?_⟩
  · intro b level text
    exact ⟨rfl, Nat.le_add_right _ _⟩
  · intro b text
    exact ⟨rfl, Nat.le_add_right _ _⟩
  · intro b items
    unfold DocsBuilder.addBulletList
    split
    · simp
    · exact ⟨rfl, Nat.le_add_right _ _⟩
  · intro format pack
    exact wf_buildRequestsBuilder format pack

theorem string_ne_of_head_ne (p s t : String) (c : Char)
    (hp : p.data.head? = some c) (ht : t.data.head? ≠ some c) : p ++ s ≠ t := by
  intro h
  apply ht
  rw [← h]
  rcases hd : p.data with _ | ⟨c', rest⟩
  · rw [hd] at hp; simp at hp
  · rw [hd] at hp
    simp only [List.head?_cons, Option.some.injEq] at hp
    subst hp
    show (p ++ s).data.head? = _
    rw [String.data_append, hd]
    rfl

theorem string_ne_of_mem_not_mem (c : Char) (s t : String)
    (hs : c ∈ s.data) (ht : c ∉ t.data) : s ≠ t := by
  intro h
  subst h
  exact ht hs

@[simp] theorem mechanism_line_ne (m : String) :
    (("Mechanism: " ++ m) == "(no content)") = false := by
  rw [beq_eq_false_iff_ne]
  exact string_ne_of_head_ne _ _ _ 'M' (by decide) (by decide)

@[simp] theorem comparative_line_ne (c : String) :
    (("Comparative: " ++ c) == "(no content)") = false := by
  rw [beq_eq_false_iff_ne]
  exact string_ne_of_head_ne _ _ _ 'C' (by decide) (by decide)

@[simp] theorem why_it_matters_line_ne (w : String) :
    (("Why it matters: " ++ w) == "(no content)") = false := by
  rw [beq_eq_false_iff_ne]
  exact string_ne_of_head_ne _ _ _ 'W' (by decide) (by decide)

@[simp] theorem example_line_ne (l w : String) :
    ((l ++ " – " ++ w) == "(no content)") = false := by
  rw [beq_eq_false_iff_ne]
  apply string_ne_of_mem_not_mem '–'
  · rw [String.data_append, String.data_append]
    exact List.mem_append_left _ (List.mem_append_right _ (by decide))
  · decide

/-- A fold whose step leaves a trace count unchanged leaves it unchanged. -/
theorem foldl_trace_countP_const {α : Type} (p : BuilderOp → Bool)
    (f : DocsBuilder → α → DocsBuilder)
    (hf : ∀ b x, ((f b x).trace.countP p) = b.trace.countP p) :
    ∀ (l : List α) (b : DocsBuilder),
      ((l.foldl f b).trace.countP p) = b.trace.countP p := by
  intro l
  induction l with
  | nil => intro b; rfl
  | cons x xs ih =>
    intro b
    rw [List.foldl_cons, ih, hf]

/-- A fold whose step increments a trace count by one increments it by the
list length. -/
theorem foldl_trace_countP_one {α : Type} (p : BuilderOp → Bool)
    (f : DocsBuilder → α → DocsBuilder)
    (hf : ∀ b x, ((f b x).trace.countP p) = b.trace.countP p + 1) :
    ∀ (l : List α) (b : DocsBuilder),
      ((l.foldl f b).trace.countP p) = b.trace.countP p + l.length := by
  intro l
  induction l with
  | nil => intro b; rfl
  | cons x xs ih =>
    intro b
    rw [List.foldl_cons, ih, hf, List.length_cons]
    omega

theorem countP_trace_addHeading (p : BuilderOp → Bool) (b : DocsBuilder)
    (level : Nat) (text : String) :
    ((b.addHeading level text).trace.countP p)
      = b.trace.countP p + (if p (BuilderOp.heading level text) then 1 else 0) := by
  simp [DocsBuilder.addHeading, List.countP_append, List.countP_cons]

theorem countP_trace_addParagraph (p : BuilderOp → Bool) (b : DocsBuilder)
    (text : String) :
    ((b.addParagraph text).trace.countP p)
      = b.trace.countP p + (if p (BuilderOp.paragraph text) then 1 else 0) := by
  simp [DocsBuilder.addParagraph, List.countP_append, List.countP_cons]

theorem countP_trace_addBulletList (p : BuilderOp → Bool) (b : DocsBuilder)
    (items : List String) :
    ((b.addBulletList items).trace.countP p)
      = b.trace.countP p
        + (if items.length = 0 then 0
           else if p (BuilderOp.bulletList items) then 1 else 0) := by
  unfold DocsBuilder.addBulletList
  split
  · simp [*]
  · simp [List.countP_append, List.countP_cons, *]

theorem h3_addOptListBlock (b : DocsBuilder) (label : String)
    (o : Option (List String)) :
    ((addOptListBlock b label o).trace.countP isHeading3)
      = b.trace.countP isHeading3 := by
  unfold addOptListBlock
  cases o with
  | none => rfl
  | some items =>
    dsimp only
    split
    · rw [countP_trace_addBulletList, countP_trace_addParagraph]
      simp [isHeading3]
    · rfl

theorem h3_addTruthyParagraph (b : DocsBuilder) (o : Option String)
    (render : String → String) :
    ((addTruthyParagraph b o render).trace.countP isHeading3)
      = b.trace.countP isHeading3 := by
  unfold addTruthyParagraph
  cases o with
  | none => rfl
  | some s =>
    dsimp only
    split
    · rw [countP_trace_addParagraph]; simp [isHeading3]
    · rfl

theorem h3_addArgExamples (b : DocsBuilder) (o : Option (List Example)) :
    ((addArgExamples b o).trace.countP isHeading3)
      = b.trace.countP isHeading3 := by
  unfold addArgExamples
  cases o with
  | none => rfl
  | some es =>
    dsimp only
    split
    · rw [foldl_trace_countP_const isHeading3 renderArgExample, countP_trace_addParagraph]
      · simp [isHeading3]
      · intro b' e
        unfold renderArgExample
        rw [countP_trace_addParagraph, countP_trace_addParagraph]
        simp [isHeading3]
    · rfl

theorem h3_renderArgument (b : DocsBuilder) (idx : Nat) (a : Argument) :
    ((renderArgument b idx a).trace.countP isHeading3)
      = b.trace.countP isHeading3 + 1 := by
  unfold renderArgument
  rw [h3_addArgExamples, h3_addOptListBlock, h3_addTruthyParagraph, h3_addOptListBlock,
    countP_trace_addBulletList, countP_trace_addParagraph, countP_trace_addParagraph,
    countP_trace_addHeading]
  simp [isHeading3]

theorem nc_addOptListBlock (b : DocsBuilder) (label : String)
    (o : Option (List String)) (hl : (label == "(no content)") = false) :
    ((addOptListBlock b label o).trace.countP isNoContentPara)
      = b.trace.countP isNoContentPara := by
  unfold addOptListBlock
  cases o with
  | none => rfl
  | some items =>
    dsimp only
    split
    · rw [countP_trace_addBulletList, countP_trace_addParagraph]
      simp [isNoContentPara, hl]
    · rfl

theorem nc_addTruthyParagraph (b : DocsBuilder) (o : Option String)
    (render : String → String)
    (hr : ∀ s, ((render s) == "(no content)") = false) :
    ((addTruthyParagraph b o render).trace.countP isNoContentPara)
      = b.trace.countP isNoContentPara := by
  unfold addTruthyParagraph
  cases o with
  | none => rfl
  | some s =>
    dsimp only
    split
    · rw [countP_trace_addParagraph]; simp [isNoContentPara, hr]
    · rfl

theorem nc_addArgExamples (b : DocsBuilder) (o : Option (List Example)) :
    ((addArgExamples b o).trace.countP isNoContentPara)
      = b.trace.countP isNoContentPara := by
  unfold addArgExamples
  cases o with
  | none => rfl
  | some es =>
    dsimp only
    split
    · rw [foldl_trace_countP_const isNoContentPara renderArgExample, countP_trace_addParagraph]
      · simp [isNoContentPara]
      · intro b' e
        unfold renderArgExample
        rw [countP_trace_addParagraph, countP_trace_addParagraph]
        simp [isNoContentPara]
    · rfl

theorem nc_renderArgument (b : DocsBuilder) (idx : Nat) (a : Argument) :
    ((renderArgument b idx a).trace.countP isNoContentPara)
      = b.trace.countP isNoContentPara := by
  unfold renderArgument
  rw [nc_addArgExamples, nc_addOptListBlock _ _ _ (by decide),
    nc_addTruthyParagraph _ _ _ (fun s => comparative_line_ne s),
    nc_addOptListBlock _ _ _ (by decide),
    countP_trace_addBulletList, countP_trace_addParagraph, countP_trace_addParagraph,
    countP_trace_addHeading]
  simp [isNoContentPara]

/-- C6.  An argument-case section renders its level-2 heading and then:
for an empty argument list, exactly one `"(no content)"` paragraph and
nothing else (in particular no per-argument level-3 heading); for a
non-empty list, exactly one level-3 heading per argument and no
`"(no content)"` paragraph at all. -/
theorem c6_argument_section_rendering :
    (∀ (b : DocsBuilder) (heading : String),
      (formatArgumentSection b heading []).trace
        = b.trace ++ [BuilderOp.heading 2 heading, BuilderOp.paragraph "(no content)"])
    ∧ (∀ (b : DocsBuilder) (heading : String) (items : List Argument),
        items ≠ [] →
        ((formatArgumentSection b heading items).trace.countP isHeading3)
          = b.trace.countP isHeading3 + items.length
        ∧ ((formatArgumentSection b heading items).trace.countP isNoContentPara)
          = b.trace.countP isNoContentPara) := by
  constructor
  · intro b heading
    simp [formatArgumentSection, DocsBuilder.addHeading, DocsBuilder.addParagraph]
  · intro b heading items hne
    have hlen : ¬ items.length = 0 := by
      simpa [List.length_eq_zero] using hne
    simp only [formatArgumentSection]
    rw [if_neg hlen]
    constructor
    · have h1 := foldl_trace_countP_one isHeading3
        (fun b' (p : Nat × Argument) => renderArgument b' p.1 p.2)
        (fun b' p => h3_renderArgument b' p.1 p.2) items.enum (b.addHeading 2 heading)
      rw [h1, countP_trace_addHeading, List.enum_length]
      simp [isHeading3]
    · have h1 := foldl_trace_countP_const isNoContentPara
        (fun b' (p : Nat × Argument) => renderArgument b' p.1 p.2)
        (fun b' p => nc_renderArgument b' p.1 p.2) items.enum (b.addHeading 2 heading)
      rw [h1, countP_trace_addHeading]
      simp [isNoContentPara]

theorem c6_argument_section_rendering_witness :
    (formatArgumentSection DocsBuilder.new "Government Case" []).trace
      = [BuilderOp.heading 2 "Government Case", BuilderOp.paragraph "(no content)"]
    ∧ ((formatArgumentSection DocsBuilder.new "Government Case"
          [sampleArgument]).trace.countP isHeading3) = 1
    ∧ ((formatArgumentSection DocsBuilder.new "Government Case"
          [sampleArgument]).trace.countP isNoContentPara) = 0 := by
  refine ⟨?_, ?_, ?_⟩
  · simpa [DocsBuilder.new] using
      c6_argument_section_rendering.1 DocsBuilder.new "Government Case"
  · simpa [DocsBuilder.new] using
      (c6_argument_section_rendering.2 DocsBuilder.new "Government Case"
        [sampleArgument] (by simp)).1
  · simpa [DocsBuilder.new] using
      (c6_argument_section_rendering.2 DocsBuilder.new "Government Case"
        [sampleArgument] (by simp)).2

/-- C3.  The fingerprint is deterministic and depends only on the five
canonical fields: recomputing it yields the same digest, and two packs
that agree on title, motion, context and both cases get identical
fingerprints whatever their other fields (in particular `inputMetadata`)
contain. -/
theorem c3_fingerprint_canonical_subset :
    (∀ (sha256Hex : String → String) (pack : LessonPack),
      generateContentFingerprint sha256Hex pack
        = generateContentFingerprint sha256Hex pack)
    ∧ (∀ (sha256Hex : String → String) (p₁ p₂ : LessonPack),
        p₁.title = p₂.title →
        p₁.motionOrTopic = p₂.motionOrTopic →
        p₁.context = p₂.context →
        p₁.govCase = p₂.govCase →
        p₁.oppCase = p₂.oppCase →
        generateContentFingerprint sha256Hex p₁
          = generateContentFingerprint sha256Hex p₂) := by
  refine ⟨fun _ _ => rfl, ?_⟩
  intro sha p₁ p₂ h₁ h₂ h₃ h₄ h₅
  unfold generateContentFingerprint contentString
  rw [h₁, h₂, h₃, h₄, h₅]

theorem c3_fingerprint_canonical_subset_witness :
    samplePack.inputMetadata ≠ samplePackAlt.inputMetadata
    ∧ generateContentFingerprint (fun s => s) samplePack
        = generateContentFingerprint (fun s => s) samplePackAlt :=
  ⟨by decide,
   c3_fingerprint_canonical_subset.2 (fun s => s) samplePack samplePackAlt
     rfl rfl rfl rfl rfl⟩

theorem backoffDelays_eq (baseDelay : Nat) :
    ∀ (f s : Nat),
      backoffDelays baseDelay s f = (List.range f).map (fun k => baseDelay * 2 ^ (s + k)) := by
  intro f
  induction f with
  | zero => intro s; rfl
  | succ f ih =>
    intro s
    rw [backoffDelays, List.range_succ_eq_map, List.map_cons, List.map_map, ih (s + 1)]
    refine congrArg₂ _ (by rw [Nat.add_zero]) ?_
    apply List.map_congr_left
    intro a _
    show baseDelay * 2 ^ (s + 1 + a) = baseDelay * 2 ^ (s + (a + 1))
    have hsa : s + 1 + a = s + (a + 1) := by omega
    rw [hsa]

theorem withRetryGo_allRetryable {T : Type} (fn : Nat → Except ApiError T)
    (baseDelay maxRetries : Nat)
    (hf : ∀ i, ∃ e, fn i = Except.error e ∧ isRetryableError e = true) :
    ∀ (f s : Nat), s + f = maxRetries →
      ∃ e, fn (maxRetries + 1) = Except.error e ∧
        withRetryGo fn baseDelay maxRetries (s + 1) (f + 1)
          = (Except.error (RetryError.api e), f + 1, backoffDelays baseDelay s f) := by
  intro f
  induction f with
  | zero =>
    intro s hs
    obtain ⟨e, he, hre⟩ := hf (maxRetries + 1)
    refine ⟨e, he, ?_⟩
    have hs1 : s + 1 = maxRetries + 1 := by omega
    rw [withRetryGo, hs1, he]
    simp [hre, backoffDelays]
  | succ f ih =>
    intro s hs
    obtain ⟨e₁, he₁, hre₁⟩ := hf (s + 1)
    obtain ⟨e, he, hgo⟩ := ih (s + 1) (by omega)
    refine ⟨e, he, ?_⟩
    have hne : s + 1 ≠ maxRetries + 1 := by omega
    rw [withRetryGo, he₁]
    simp only [hre₁, Bool.not_true, Bool.false_or,
      beq_eq_false_iff_ne.mpr hne, if_false]
    rw [hgo]
    simp [backoffDelays, Nat.add_sub_cancel]

theorem withRetryGo_nonRetryable {T : Type} (fn : Nat → Except ApiError T)
    (baseDelay maxRetries j : Nat) (e : ApiError)
    (hbefore : ∀ i, 1 ≤ i → i < j →
      ∃ e', fn i = Except.error e' ∧ isRetryableError e' = true)
    (hj : fn j = Except.error e) (hne : isRetryableError e = false)
    (hj2 : j ≤ maxRetries + 1) :
    ∀ (f s : Nat), s + 1 + (f + 1) = maxRetries + 2 → s + 1 ≤ j →
      withRetryGo fn baseDelay maxRetries (s + 1) (f + 1)
        = (Except.error (RetryError.api e), j - s,
           backoffDelays baseDelay s (j - (s + 1))) := by
  intro f
  induction f with
  | zero =>
    intro s h1 h2
    have hjeq : j = s + 1 := by omega
    subst hjeq
    simp [withRetryGo, hj, hne, backoffDelays, Nat.add_sub_cancel_left]
  | succ f ih =>
    intro s h1 h2
    by_cases hcase : s + 1 = j
    · rw [withRetryGo, show s + 1 = j from hcase, hj]
      simp [hne, backoffDelays, hcase.symm, Nat.add_sub_cancel_left]
    · have hlt : s + 1 < j := by omega
      obtain ⟨e', he', hre'⟩ := hbefore (s + 1) (by omega) hlt
      have hne2 : s + 1 ≠ maxRetries + 1 := by omega
      rw [withRetryGo, he']
      simp only [hre', Bool.not_true, Bool.false_or,
        beq_eq_false_iff_ne.mpr hne2, if_false]
      rw [ih (s + 1) (by omega) (by omega)]
      have hd : j - (s + 1) = (j - (s + 2)) + 1 := by omega
      have hc : j - (s + 1) + 1 = j - s := by omega
      rw [hd]
      simp [backoffDelays, Nat.add_sub_cancel]
      omega

/-- C4.  If the wrapped call fails with a transient error on every
attempt, `withRetry` makes exactly `maxRetries + 1` calls, sleeping
`baseDelay * 2^(i-1)` before the i-th retry, and propagates the final
error.  If attempt `j` fails with a non-transient error (after transient
failures on attempts `1..j-1`), the error propagates after exactly `j`
calls with no delay following that attempt. -/
theorem c4_withRetry_backoff (T : Type) (fn : Nat → Except ApiError T)
    (maxRetries baseDelay : Nat) :
    ((∀ i, ∃ e, fn i = Except.error e ∧ isRetryableError e = true) →
      ∃ e, fn (maxRetries + 1) = Except.error e
        ∧ withRetry fn maxRetries baseDelay
            = (Except.error (RetryError.api e), maxRetries + 1,
               (List.range maxRetries).map (fun i => baseDelay * 2 ^ i)))
    ∧ (∀ (j : Nat) (e : ApiError),
        1 ≤ j → j ≤ maxRetries + 1 →
        (∀ i, 1 ≤ i → i < j →
          ∃ e', fn i = Except.error e' ∧ isRetryableError e' = true) →
        fn j = Except.error e → isRetryableError e = false →
        withRetry fn maxRetries baseDelay
          = (Except.error (RetryError.api e), j,
             (List.range (j - 1)).map (fun i => baseDelay * 2 ^ i))) := by
  constructor
  · intro hf
    obtain ⟨e, he, hgo⟩ := withRetryGo_allRetryable fn baseDelay maxRetries hf maxRetries 0 (by omega)
    refine ⟨e, he, ?_⟩
    rw [withRetry, hgo, backoffDelays_eq]
    simp
  · intro j e hj1 hj2 hbefore hj hne
    have hgo := withRetryGo_nonRetryable fn baseDelay maxRetries j e hbefore hj hne hj2
      maxRetries 0 (by omega) (by omega)
    rw [withRetry, hgo, backoffDelays_eq]
    simp

theorem c4_withRetry_backoff_witness :
    withRetry (T := Unit) (fun _ => Except.error ⟨some 503, "Service Unavailable"⟩) 2 100
      = (Except.error (RetryError.api ⟨some 503, "Service Unavailable"⟩), 3, [100, 200])
    ∧ withRetry (T := Unit)
        (fun i => if i = 1 then Except.error ⟨some 503, "Service Unavailable"⟩
                  else Except.error ⟨some 404, "Not Found"⟩) 2 100
      = (Except.error (RetryError.api ⟨some 404, "Not Found"⟩), 2, [100]) := by
  constructor
  · obtain ⟨e, he, hw⟩ :=
      (c4_withRetry_backoff Unit (fun _ => Except.error ⟨some 503, "Service Unavailable"⟩)
        2 100).1 (fun _ => ⟨⟨some 503, "Service Unavailable"⟩, rfl, by decide⟩)
    have he' : (⟨some 503, "Service Unavailable"⟩ : ApiError) = e := by
      simpa using he
    subst he'
    rw [hw]
    simp [List.range_succ]
  · have hw :=
      (c4_withRetry_backoff Unit
        (fun i => if i = 1 then Except.error ⟨some 503, "Service Unavailable"⟩
                  else Except.error ⟨some 404, "Not Found"⟩) 2 100).2
        2 ⟨some 404, "Not Found"⟩ (by omega) (by omega)
        (fun i h1 h2 => by
          have hi : i = 1 := by omega
          subst hi
          exact ⟨⟨some 503, "Service Unavailable"⟩, rfl, by decide⟩)
        rfl (by decide)
    rw [hw]
    simp [List.range_succ]

theorem callJsonModelGo_allInvalid {T : Type}
    (oracle : Nat → List ChatMessage → Option MessageContent)
    (validate : String → Except String T) (maxAttempts : Nat)
    (h : alwaysInvalid oracle validate) :
    ∀ (f s : Nat) (msgs : List ChatMessage), s + 1 + f = maxAttempts →
      ∃ d raw, callJsonModelGo oracle validate maxAttempts msgs (s + 1) (f + 1)
        = (Except.error (GenFailure.invalidOutput d raw), f + 1) := by
  intro f
  induction f with
  | zero =>
    intro s msgs hs
    obtain ⟨mc, hmc, d, hd⟩ := h (s + 1) msgs
    refine ⟨d, extractMessageContent mc, ?_⟩
    rw [callJsonModelGo, hmc]
    simp only [hd]
    rw [if_pos (by simpa using hs)]
  | succ f ih =>
    intro s msgs hs
    obtain ⟨mc, hmc, d, hd⟩ := h (s + 1) msgs
    obtain ⟨d', raw', hgo⟩ := ih (s + 1)
      (msgs ++ [⟨Role.assistant, extractMessageContent mc⟩,
                ⟨Role.user, correctionMessage d⟩]) (by omega)
    refine ⟨d', raw', ?_⟩
    rw [callJsonModelGo, hmc]
    simp only [hd]
    rw [if_neg (by simp; omega)]
    simp only [hgo]

theorem callJsonModelGo_firstSuccess {T : Type}
    (oracle : Nat → List ChatMessage → Option MessageContent)
    (validate : String → Except String T) (maxAttempts k : Nat) (t : T)
    (hk : k ≤ maxAttempts)
    (hinv : invalidBelow oracle validate k)
    (hval : validAt oracle validate k t) :
    ∀ (f s : Nat) (msgs : List ChatMessage), s + 1 + f = maxAttempts → s + 1 ≤ k →
      callJsonModelGo oracle validate maxAttempts msgs (s + 1) (f + 1)
        = (Except.ok t, k - s) := by
  intro f
  induction f with
  | zero =>
    intro s msgs hs hsk
    have hkeq : k = s + 1 := by omega
    obtain ⟨mc, hmc, hv⟩ := hval msgs
    rw [callJsonModelGo, ← hkeq, hmc]
    simp only [hv]
    rw [hkeq]
    simp [Nat.add_sub_cancel_left]
  | succ f ih =>
    intro s msgs hs hsk
    by_cases hcase : s + 1 = k
    · obtain ⟨mc, hmc, hv⟩ := hval msgs
      rw [callJsonModelGo, hcase, hmc]
      simp only [hv]
      rw [← hcase]
      simp [Nat.add_sub_cancel_left]
    · have hlt : s + 1 < k := by omega
      obtain ⟨mc, hmc, d, hd⟩ := hinv (s + 1) msgs hlt
      rw [callJsonModelGo, hmc]
      simp only [hd]
      rw [if_neg (by simp; omega)]
      rw [ih (s + 1) _ (by omega) (by omega)]
      have hks : k - (s + 1) + 1 = k - s := by omega
      simp only [hks]

theorem callJsonModelGo_emptyAt {T : Type}
    (oracle : Nat → List ChatMessage → Option MessageContent)
    (validate : String → Except String T) (maxAttempts j : Nat)
    (hj : j ≤ maxAttempts)
    (hinv : invalidBelow oracle validate j)
    (hempty : ∀ msgs, oracle j msgs = none) :
    ∀ (f s : Nat) (msgs : List ChatMessage), s + 1 + f = maxAttempts → s + 1 ≤ j →
      callJsonModelGo oracle validate maxAttempts msgs (s + 1) (f + 1)
        = (Except.error GenFailure.emptyResponse, j - s) := by
  intro f
  induction f with
  | zero =>
    intro s msgs hs hsj
    have hjeq : j = s + 1 := by omega
    rw [callJsonModelGo, ← hjeq, hempty msgs, hjeq]
    simp [Nat.add_sub_cancel_left]
  | succ f ih =>
    intro s msgs hs hsj
    by_cases hcase : s + 1 = j
    · rw [callJsonModelGo, hcase, hempty msgs, ← hcase]
      simp [Nat.add_sub_cancel_left]
    · have hlt : s + 1 < j := by omega
      obtain ⟨mc, hmc, d, hd⟩ := hinv (s + 1) msgs hlt
      rw [callJsonModelGo, hmc]
      simp only [hd]
      rw [if_neg (by simp; omega)]
      rw [ih (s + 1) _ (by omega) (by omega)]
      have hjs : j - (s + 1) + 1 = j - s := by omega
      simp only [hjs]

/-- C1.  With `maxAttempts >= 1`: when every attempt returns content that
fails JSON parsing or schema validation, `callJsonModel` makes exactly
`maxAttempts` model calls and fails with an invalid-output failure; when
attempts before `k` fail validation and attempt `k <= maxAttempts`
validates to `t`, exactly `k` calls are made and `t` is returned
immediately. -/
theorem c1_generate_retry_bound (T : Type)
    (oracle : Nat → List ChatMessage → Option MessageContent)
    (validate : String → Except String T) (systemPrompt userPrompt : String)
    (formatHint : Option String) (maxAttempts : Nat) (hmax : 1 ≤ maxAttempts) :
    (alwaysInvalid oracle validate →
      ∃ d raw, callJsonModel oracle validate systemPrompt userPrompt formatHint maxAttempts
        = (Except.error (GenFailure.invalidOutput d raw), maxAttempts))
    ∧ (∀ (k : Nat) (t : T), 1 ≤ k → k ≤ maxAttempts →
        invalidBelow oracle validate k → validAt oracle validate k t →
        callJsonModel oracle validate systemPrompt userPrompt formatHint maxAttempts
          = (Except.ok t, k)) := by
  obtain ⟨f, rfl⟩ : ∃ f, maxAttempts = f + 1 := ⟨maxAttempts - 1, by omega⟩
  constructor
  · intro h
    obtain ⟨d, raw, hgo⟩ := callJsonModelGo_allInvalid oracle validate (f + 1) h f 0
      (initialMessages systemPrompt userPrompt formatHint) (by omega)
    exact ⟨d, raw, by simpa [callJsonModel] using hgo⟩
  · intro k t hk1 hk2 hinv hval
    have hgo := callJsonModelGo_firstSuccess oracle validate (f + 1) k t hk2 hinv hval f 0
      (initialMessages systemPrompt userPrompt formatHint) (by omega) (by omega)
    simpa [callJsonModel] using hgo

theorem c1_generate_retry_bound_witness :
    (∃ d raw, callJsonModel (T := Nat) (fun _ _ => some (MessageContent.str "bad"))
        (fun s => if s == "ok" then Except.ok 0 else Except.error "invalid")
        "sys" "user" none 3
        = (Except.error (GenFailure.invalidOutput d raw), 3))
    ∧ callJsonModel (T := Nat)
        (fun i _ => some (MessageContent.str (if i == 2 then "ok" else "bad")))
        (fun s => if s == "ok" then Except.ok 0 else Except.error "invalid")
        "sys" "user" none 3
        = (Except.ok 0, 2) := by
  constructor
  · exact (c1_generate_retry_bound Nat (fun _ _ => some (MessageContent.str "bad"))
      (fun s => if s == "ok" then Except.ok 0 else Except.error "invalid")
      "sys" "user" none 3 (by omega)).1
      (fun i msgs => ⟨MessageContent.str "bad", rfl, "invalid",
        by simp [extractMessageContent]⟩)
  · exact (c1_generate_retry_bound Nat
      (fun i _ => some (MessageContent.str (if i == 2 then "ok" else "bad")))
      (fun s => if s == "ok" then Except.ok 0 else Except.error "invalid")
      "sys" "user" none 3 (by omega)).2 2 0 (by omega) (by omega)
      (fun i msgs hi => by
        have h2 : (i == 2) = false := by
          simp only [beq_eq_false_iff_ne]
          omega
        exact ⟨MessageContent.str (if i == 2 then "ok" else "bad"), rfl, "invalid",
          by simp [extractMessageContent, h2]⟩)
      (fun msgs => ⟨MessageContent.str (if 2 == 2 then "ok" else "bad"), rfl,
        by simp [extractMessageContent]⟩)

/-- C7.  When every attempt before `j` returns invalid content and the
completion of attempt `j <= maxAttempts` carries no message at all,
`callJsonModel` fails immediately with the empty-response failure after
exactly `j` calls — the empty response is never retried, however many
attempts remain. -/
theorem c7_empty_response_not_retried (T : Type)
    (oracle : Nat → List ChatMessage → Option MessageContent)
    (validate : String → Except String T) (systemPrompt userPrompt : String)
    (formatHint : Option String) (maxAttempts j : Nat)
    (hj1 : 1 ≤ j) (hj2 : j ≤ maxAttempts)
    (hinv : invalidBelow oracle validate j)
    (hempty : ∀ msgs, oracle j msgs = none) :
    callJsonModel oracle validate systemPrompt userPrompt formatHint maxAttempts
      = (Except.error GenFailure.emptyResponse, j) := by
  obtain ⟨f, rfl⟩ : ∃ f, maxAttempts = f + 1 := ⟨maxAttempts - 1, by omega⟩
  have hgo := callJsonModelGo_emptyAt oracle validate (f + 1) j hj2 hinv hempty f 0
    (initialMessages systemPrompt userPrompt formatHint) (by omega) (by omega)
  simpa [callJsonModel] using hgo

theorem c7_empty_response_not_retried_witness :
    callJsonModel (T := Nat)
      (fun i _ => if i == 2 then none else some (MessageContent.str "bad"))
      (fun s => if s == "ok" then Except.ok 0 else Except.error "invalid")
      "sys" "user" none 5
      = (Except.error GenFailure.emptyResponse, 2) := by
  exact c7_empty_response_not_retried Nat
    (fun i _ => if i == 2 then none else some (MessageContent.str "bad"))
    (fun s => if s == "ok" then Except.ok 0 else Except.error "invalid")
    "sys" "user" none 5 2 (by omega) (by omega)
    (fun i msgs hi => by
      have h2 : (i == 2) = false := by
        simp only [beq_eq_false_iff_ne]
        omega
      exact ⟨MessageContent.str "bad", by simp [h2], "invalid",
        by simp [extractMessageContent]⟩)
    (fun msgs => by simp)

theorem foldl_append_eq_map {α β : Type} (g : α → β) (l : List α) :
    ∀ init : List β, l.foldl (fun acc x => acc ++ [g x]) init = init ++ l.map g := by
  induction l with
  | nil => intro init; simp
  | cons x xs ih =>
    intro init
    rw [List.foldl_cons, ih, List.map_cons]
    simp

/-- C5.  `runPipeline` yields exactly one outcome per discovered file,
each outcome a function of that file alone; every outcome is either a
success (no error, optional published URL) or a failure carrying an error
string; a failure at any stage of one file — the preprocessing stage
included — leaves every other file's outcome unchanged. -/
theorem c5_per_file_isolation (o : AgentOracles)
    (preprocess : String → Except String PreprocessedDocument) (files : List String) :
    runPipeline o preprocess files = files.map (perFileOutcome o preprocess)
    ∧ (runPipeline o preprocess files).length = files.length
    ∧ ∀ r ∈ runPipeline o preprocess files,
        (r.success = true ∧ r.error = none)
        ∨ (r.success = false ∧ ∃ msg, r.error = some msg) := by
  have hmap : runPipeline o preprocess files = files.map (perFileOutcome o preprocess) := by
    rw [runPipeline]
    exact foldl_append_eq_map (perFileOutcome o preprocess) files []
  refine ⟨hmap, by rw [hmap, List.length_map], ?_⟩
  intro r hr
  rw [hmap] at hr
  obtain ⟨file, _, rfl⟩ := List.mem_map.mp hr
  unfold perFileOutcome processSingleFile
  repeat' split
  all_goals first
    | exact Or.inl ⟨rfl, rfl⟩
    | exact Or.inr ⟨rfl, _, rfl⟩

theorem c5_per_file_isolation_witness :
    runPipeline goodOracles preW ["bad.pdf", "good.md"]
      = ["bad.pdf", "good.md"].map (perFileOutcome goodOracles preW)
    ∧ (runPipeline goodOracles preW ["bad.pdf", "good.md"]).length = 2
    ∧ ((perFileOutcome goodOracles preW "bad.pdf").success = false
        ∧ ∃ msg, (perFileOutcome goodOracles preW "bad.pdf").error = some msg)
    ∧ (perFileOutcome goodOracles preW "good.md").success = true := by
  have h := c5_per_file_isolation goodOracles preW ["bad.pdf", "good.md"]
  refine ⟨h.1, h.2.1, ?_, by decide⟩
  have hmem : perFileOutcome goodOracles preW "bad.pdf"
      ∈ runPipeline goodOracles preW ["bad.pdf", "good.md"] := by
    rw [h.1]
    exact List.mem_map_of_mem _ (by simp)
  rcases h.2.2 _ hmem with ⟨hs, _⟩ | hfail
  · exact absurd hs (by decide)
  · exact hfail

/-- C8.  The finalize-validate stage: stamping replaces only
`inputMetadata` (with the source file's basename and detected kind) and
leaves every other field of the synthesis output unchanged; the full
schema passes only when each case list has ≥ 1 argument, the examples
bank has ≥ 3 entries each carrying ≥ 1 source, and there are ≥ 3 sources;
a record passing validation is returned unchanged; and a validation
failure here fails the file. -/
theorem c8_finalize_validate :
    (∀ (pack : LessonPack) (doc : PreprocessedDocument),
      (stampPack pack doc).title = pack.title
      ∧ (stampPack pack doc).motionOrTopic = pack.motionOrTopic
      ∧ (stampPack pack doc).context = pack.context
      ∧ (stampPack pack doc).firstPrinciples = pack.firstPrinciples
      ∧ (stampPack pack doc).govCase = pack.govCase
      ∧ (stampPack pack doc).oppCase = pack.oppCase
      ∧ (stampPack pack doc).counterCases = pack.counterCases
      ∧ (stampPack pack doc).extensions = pack.extensions
      ∧ (stampPack pack doc).rebuttalLadders = pack.rebuttalLadders
      ∧ (stampPack pack doc).weighing = pack.weighing
      ∧ (stampPack pack doc).drills = pack.drills
      ∧ (stampPack pack doc).glossary = pack.glossary
      ∧ (stampPack pack doc).examplesBank = pack.examplesBank
      ∧ (stampPack pack doc).sources = pack.sources
      ∧ (stampPack pack doc).inputMetadata
          = { filename := some doc.filename, kind := some doc.kind })
    ∧ (∀ (urlValid : String → Bool) (p : LessonPack),
        lessonPackValid urlValid p = true →
        1 ≤ p.govCase.length ∧ 1 ≤ p.oppCase.length
        ∧ 3 ≤ p.examplesBank.length
        ∧ (∀ e ∈ p.examplesBank, 1 ≤ e.sources.length)
        ∧ 3 ≤ p.sources.length)
    ∧ (∀ (urlValid : String → Bool) (p : LessonPack),
        lessonPackValid urlValid p = true →
        LessonPack.parse urlValid p = Except.ok p)
    ∧ (∀ (o : AgentOracles) (doc : PreprocessedDocument)
        (st : StrategistOutput) (re : ResearchAdjOutput) (pack : LessonPack),
        o.strategist (buildAgentInput doc) = Except.ok st →
        o.research (buildAgentInput doc) = Except.ok re →
        o.synthesis st re (buildAgentInput doc) = Except.ok pack →
        lessonPackValid o.urlValid (stampPack pack doc) = false →
        processSingleFile o doc
          = { file := doc.absolutePath, success := false,
              error := some "LessonPack validation failed", googleDocUrl := none }) := by
  refine ⟨?_, ?_, ?_, ?_⟩
  · intro pack doc
    exact ⟨rfl, rfl, rfl, rfl, rfl, rfl, rfl, rfl, rfl, rfl, rfl, rfl, rfl, rfl, rfl⟩
  · intro u p h
    simp only [lessonPackValid, Bool.and_eq_true, decide_eq_true_eq,
      List.all_eq_true] at h
    obtain ⟨⟨⟨⟨⟨⟨⟨⟨h1, _⟩, h3⟩, _⟩, _⟩, h6⟩, h7⟩, h8⟩, _⟩ := h
    refine ⟨h1, h3, h6, ?_, h8⟩
    intro e he
    have h9 := h7 e he
    simp only [exampleValid, Bool.and_eq_true, decide_eq_true_eq] at h9
    exact h9.1
  · intro u p h
    simp [LessonPack.parse, h]
  · intro o doc st re pack h1 h2 h3 h4
    unfold processSingleFile
    simp only [h1, h2, h3, LessonPack.parse, h4, Bool.false_eq_true, if_false]

theorem c8_finalize_validate_witness :
    (stampPack samplePack docW).inputMetadata
      = { filename := some "environment.md", kind := some DocKind.markdown }
    ∧ (stampPack samplePack docW).govCase = samplePack.govCase
    ∧ 3 ≤ samplePack.sources.length
    ∧ (∀ e ∈ samplePack.examplesBank, 1 ≤ e.sources.length)
    ∧ LessonPack.parse (fun _ => true) samplePack = Except.ok samplePack
    ∧ processSingleFile badSynthOracles docW
        = { file := "/notes/environment.md", success := false,
            error := some "LessonPack validation failed", googleDocUrl := none } := by
  have h := c8_finalize_validate
  have hvalid : lessonPackValid (fun _ => true) samplePack = true := by decide
  refine ⟨(h.1 samplePack docW).2.2.2.2.2.2.2.2.2.2.2.2.2.2, (h.1 samplePack docW).2.2.2.2.1,
    (h.2.1 (fun _ => true) samplePack hvalid).2.2.2.2,
    (h.2.1 (fun _ => true) samplePack hvalid).2.2.2.1,
    h.2.2.1 (fun _ => true) samplePack hvalid, ?_⟩
  exact h.2.2.2 badSynthOracles docW stratW resW { samplePack with govCase := [] }
    rfl rfl rfl (by decide)

theorem findFirst_eq_none (files : List DriveFile) (fp : String)
    (h : ∀ f ∈ files, fileMatchesFingerprint f fp = false) :
    findFirstFingerprintMatch files fp = none := by
  induction files with
  | nil => rfl
  | cons f rest ih =>
    rw [findFirstFingerprintMatch, if_neg (by simp [h f (by simp)])]
    exact ih (fun g hg => h g (by simp [hg]))

theorem findFirst_first_match (pre : List DriveFile) (f : DriveFile)
    (post : List DriveFile) (fp : String)
    (hpre : ∀ g ∈ pre, fileMatchesFingerprint g fp = false)
    (hf : fileMatchesFingerprint f fp = true) :
    findFirstFingerprintMatch (pre ++ f :: post) fp = some f.id := by
  induction pre with
  | nil =>
    rw [List.nil_append, findFirstFingerprintMatch, if_pos (by simp [hf])]
  | cons g rest ih =>
    rw [List.cons_append, findFirstFingerprintMatch,
      if_neg (by simp [hpre g (by simp)])]
    exact ih (fun g' hg' => hpre g' (by simp [hg']))

theorem finishPublish_steps_extend (ro : RemoteOracles) (format : String)
    (pack : LessonPack) (docId : String) (steps : List PublishStep) :
    ∃ rest, (finishPublish ro format pack docId steps).2 = steps ++ rest := by
  unfold finishPublish
  by_cases hreq : (buildRequests format pack).length ≠ 0
  · simp only [if_pos hreq]
    cases hb : ro.batchOutcome with
    | error e => exact ⟨[], by simp [hb]⟩
    | ok u =>
      cases hw : ro.webViewLink with
      | error e => exact ⟨[PublishStep.appliedContent], by simp [hb, hw]⟩
      | ok linkOpt =>
        cases linkOpt with
        | some l => exact ⟨[PublishStep.appliedContent], by simp [hb, hw]⟩
        | none => exact ⟨[PublishStep.appliedContent], by simp [hb, hw]⟩
  · simp only [if_neg hreq]
    cases hw : ro.webViewLink with
    | error e => exact ⟨[], by simp [hw]⟩
    | ok linkOpt =>
      cases linkOpt with
      | some l => exact ⟨[], by simp [hw]⟩
      | none => exact ⟨[], by simp [hw]⟩

/-- C9.  `findExistingDocByFingerprint` returns the id of the first file
of the returned listing whose stored fingerprint property equals the
target, and `none` when no listed file matches or the search failed; and
because the listing is capped at 100 files, a matching document outside
the returned page is treated as absent, in which case the publisher takes
the create-new-document branch. -/
theorem c9_fingerprint_search_page_limit :
    (∀ (e : ApiError) (fp : String),
      findExistingDocByFingerprint (Except.error e) fp = none)
    ∧ (∀ (files : List DriveFile) (fp : String),
        (∀ f ∈ files, fileMatchesFingerprint f fp = false) →
        findExistingDocByFingerprint (Except.ok files) fp = none)
    ∧ (∀ (pre : List DriveFile) (f : DriveFile) (post : List DriveFile) (fp : String),
        (∀ g ∈ pre, fileMatchesFingerprint g fp = false) →
        fileMatchesFingerprint f fp = true →
        findExistingDocByFingerprint (Except.ok (pre ++ f :: post)) fp = some f.id)
    ∧ (∀ (ro : RemoteOracles) (store : List DriveFile) (config : GoogleConfigM)
        (sha256Hex : String → String) (format : String) (pack : LessonPack)
        (id : String),
        config.mode ≠ GoogleMode.none →
        ro.authOutcome = Except.ok () →
        ro.listOutcome = Except.ok () →
        (∀ g ∈ store.take 100,
          fileMatchesFingerprint g (generateContentFingerprint sha256Hex pack) = false) →
        ro.createdId = Except.ok (some id) →
        findExistingDocByFingerprint (listFilesResponse store ro.listOutcome)
            (generateContentFingerprint sha256Hex pack) = none
        ∧ ∃ rest, (publishLessonPack ro store config sha256Hex format pack).2
            = PublishStep.createdNew (resolveTitle pack)
                (generateContentFingerprint sha256Hex pack) :: rest) := by
  refine ⟨fun _ _ => rfl, ?_, ?_, ?_⟩
  · intro files fp h
    exact findFirst_eq_none files fp h
  · intro pre f post fp hpre hf
    exact findFirst_first_match pre f post fp hpre hf
  · intro ro store config sha format pack id hmode hauth hlist hstore hcreate
    have hfind : findExistingDocByFingerprint (listFilesResponse store ro.listOutcome)
        (generateContentFingerprint sha pack) = none := by
      rw [hlist]
      exact findFirst_eq_none _ _ hstore
    refine ⟨hfind, ?_⟩
    unfold publishLessonPack
    rw [if_neg hmode]
    simp only [hauth, hfind, hcreate]
    obtain ⟨rest, hrest⟩ := finishPublish_steps_extend ro format pack id
      [PublishStep.createdNew (resolveTitle pack) (generateContentFingerprint sha pack)]
    exact ⟨rest, by simpa using hrest⟩

theorem c9_fingerprint_search_page_limit_witness :
    (∃ f ∈ bigStore, fileMatchesFingerprint f "FP" = true)
    ∧ findExistingDocByFingerprint (listFilesResponse bigStore remoteOraclesW.listOutcome)
        (generateContentFingerprint (fun _ => "FP") samplePack) = none
    ∧ ∃ rest,
        (publishLessonPack remoteOraclesW bigStore googleConfigW (fun _ => "FP")
          "BP" samplePack).2
          = PublishStep.createdNew (resolveTitle samplePack)
              (generateContentFingerprint (fun _ => "FP") samplePack) :: rest := by
  have htake : bigStore.take 100 = List.replicate 100 plainFile := by
    rw [bigStore, List.take_append_of_le_length (by simp), List.take_replicate]
    simp
  have hstore : ∀ g ∈ bigStore.take 100,
      fileMatchesFingerprint g (generateContentFingerprint (fun _ => "FP") samplePack)
        = false := by
    intro g hg
    rw [htake] at hg
    rw [List.eq_of_mem_replicate hg]
    decide
  have h := (c9_fingerprint_search_page_limit).2.2.2 remoteOraclesW bigStore googleConfigW
    (fun _ => "FP") "BP" samplePack "new-id" (by decide) rfl rfl hstore rfl
  exact ⟨⟨matchFile, by simp [bigStore], by decide⟩, h.1, h.2⟩

/-- C10 counterexample.  The claim says a non-null filename yields
`"Lesson Pack – <filename>"`, but for the (non-null) empty-string
filename the code's JS-truthiness test fails and it returns the plain
`"Lesson Pack"` instead. -/
theorem c10_resolveTitle_counterexample :
    emptyTitlePack.title = ""
    ∧ emptyTitlePack.motionOrTopic = none
    ∧ emptyTitlePack.inputMetadata.filename = some ""
    ∧ emptyTitlePack.inputMetadata.filename ≠ none
    ∧ resolveTitle emptyTitlePack = "Lesson Pack"
    ∧ resolveTitle emptyTitlePack ≠ "Lesson Pack – " ++ "" := by
  refine ⟨rfl, rfl, rfl, by decide, by decide, by decide⟩

/-- C10 (amended).  The published document's display title falls back
title → motion → filename line → `"Lesson Pack"`, each step taken only
when the field is present AND non-empty (JS truthiness), not merely
non-null. -/
theorem c10_resolveTitle_fallback_chain (pack : LessonPack) :
    (pack.title ≠ "" → resolveTitle pack = pack.title)
    ∧ (∀ m, pack.title = "" → pack.motionOrTopic = some m → m ≠ "" →
        resolveTitle pack = m)
    ∧ (∀ f, pack.title = "" → optTruthy pack.motionOrTopic = false →
        pack.inputMetadata.filename = some f → f ≠ "" →
        resolveTitle pack = "Lesson Pack – " ++ f)
    ∧ (pack.title = "" → optTruthy pack.motionOrTopic = false →
        optTruthy pack.inputMetadata.filename = false →
        resolveTitle pack = "Lesson Pack") := by
  have hemp : ∀ s : String, s.length = 0 → s = "" := by
    intro s h
    cases s with
    | mk data =>
      simp [String.length] at h
      subst h
      rfl
  have hlen : ∀ s : String, s ≠ "" → 0 < s.length := by
    intro s hs
    rcases Nat.eq_zero_or_pos s.length with h | h
    · exact absurd (hemp s h) hs
    · exact h
  have hlen0 : ∀ s : String, s = "" → ¬ 0 < s.length := by
    intro s hs
    subst hs
    decide
  refine ⟨?_, ?_, ?_, ?_⟩
  · intro ht
    rw [resolveTitle, if_pos (hlen _ ht)]
  · intro m ht hm hm2
    rw [resolveTitle, if_neg (hlen0 _ ht), hm]
    simp only
    rw [if_pos (hlen _ hm2)]
  · intro f ht hm hf hf2
    rw [resolveTitle, if_neg (hlen0 _ ht)]
    have hmeta : resolveTitle.resolveTitleFromMetadata pack = "Lesson Pack – " ++ f := by
      rw [resolveTitle.resolveTitleFromMetadata, hf]
      simp only
      rw [if_pos (hlen _ hf2)]
    cases hmo : pack.motionOrTopic with
    | none => simpa [hmo] using hmeta
    | some m =>
      rw [hmo] at hm
      simp [optTruthy, String.isEmpty_iff] at hm
      simp only
      rw [if_neg (hlen0 _ hm)]
      exact hmeta
  · intro ht hm hf
    rw [resolveTitle, if_neg (hlen0 _ ht)]
    have hmeta : resolveTitle.resolveTitleFromMetadata pack = "Lesson Pack" := by
      rw [resolveTitle.resolveTitleFromMetadata]
      cases hfo : pack.inputMetadata.filename with
      | none => rfl
      | some f =>
        rw [hfo] at hf
        simp [optTruthy, String.isEmpty_iff] at hf
        simp only
        rw [if_neg (hlen0 _ hf)]
    cases hmo : pack.motionOrTopic with
    | none => simpa [hmo] using hmeta
    | some m =>
      rw [hmo] at hm
      simp [optTruthy, String.isEmpty_iff] at hm
      simp only
      rw [if_neg (hlen0 _ hm)]
      exact hmeta

theorem c10_resolveTitle_fallback_chain_witness :
    resolveTitle samplePack = "Environment"
    ∧ resolveTitle emptyTitlePack = "Lesson Pack"
    ∧ resolveTitle { samplePack with title := "" } = "THW ban fossil fuel subsidies"
    ∧ resolveTitle { samplePack with title := "", motionOrTopic := none }
        = "Lesson Pack – environment.md" := by
  refine ⟨(c10_resolveTitle_fallback_chain samplePack).1 (by decide),
    (c10_resolveTitle_fallback_chain emptyTitlePack).2.2.2 rfl (by decide) (by decide),
    (c10_resolveTitle_fallback_chain _).2.1 "THW ban fossil fuel subsidies" rfl rfl
      (by decide),
    (c10_resolveTitle_fallback_chain _).2.2.1 "environment.md" rfl (by decide) rfl
      (by decide)⟩
